import Mathlib

/-!
Verification of the two browser-automation scripts in
`verification/verify_lesson.py` and `verification/verify_lesson_page.py`.

Each script is a straight-line sequence of browser operations (navigate,
wait, click, fill, screenshot) interleaved with prints and ad-hoc
`try/except` blocks.  We embed each script shallowly: the outcome of every
fallible browser operation (a `goto`, a `wait_for_selector`, a
`wait_for_url`, a `click`, a `fill`) is supplied by an environment record,
`none` meaning the operation succeeded and `some msg` meaning it raised an
exception carrying message `msg`.  Pure queries (`is_visible`, `count`,
`page.url`) are plain fields of the environment.  The script itself becomes
a function from the environment to a run record collecting, in order, the
printed log lines, the screenshot paths written, the URLs navigated to, the
program points of the attempted steps, and the exception (if any) that
propagates out of the script.
-/

/-- Accumulated observable effects of a run: printed log lines, screenshot
paths written, URLs passed to `page.goto`, and the program points (one id
per navigation/wait/click/fill statement in the source) of the steps that
were attempted, each in chronological order. -/
structure St where
  log : List String
  shots : List String
  gotos : List String
  trace : List Nat
deriving Repr, DecidableEq

/-- The empty starting state of a run. -/
def St.init : St := ⟨[], [], [], []⟩

/-- A script fragment: transforms the state and either falls through
(`none`) or raises an exception with a message (`some msg`). -/
def Script : Type := St → St × Option String

/-- Sequencing: run `a`; if it raised, the exception propagates and `b`
does not run, otherwise continue with `b`.  This is Python's ordinary
statement sequencing. -/
def seqS (a b : Script) : Script := fun s =>
  match (a s).2 with
  | none => b (a s).1
  | some e => ((a s).1, some e)

/-- A `print(...)` statement. -/
def emit (m : String) : Script := fun s =>
  ({ s with log := s.log ++ [m] }, none)

/-- A `page.screenshot(path=...)` statement (records the path written). -/
def shot (p : String) : Script := fun s =>
  ({ s with shots := s.shots ++ [p] }, none)

/-- A fallible browser step at program point `i` whose outcome `r` is
supplied by the environment: the attempt is recorded, then the step either
succeeds (`r = none`) or raises (`r = some msg`). -/
def attempt (i : Nat) (r : Option String) : Script := fun s =>
  ({ s with trace := s.trace ++ [i] }, r)

/-- A `page.goto(url)` statement at program point `i`: records the target
URL as well as the attempt. -/
def nav (i : Nat) (url : String) (r : Option String) : Script := fun s =>
  ({ s with trace := s.trace ++ [i], gotos := s.gotos ++ [url] }, r)

/-- A statement with no observable effect (e.g. `browser.close()`). -/
def skip : Script := fun s => (s, none)

/-- `raise e` (used to model the re-raise in an `except` block). -/
def raiseS (e : String) : Script := fun s => (s, some e)

/-- Python `try: body except Exception as e: handler e`. -/
def tryc (body : Script) (handler : String → Script) : Script := fun s =>
  match (body s).2 with
  | none => ((body s).1, none)
  | some e => handler e (body s).1

/-- A block of statements run in order. -/
def block (l : List Script) : Script := l.foldr seqS skip

/-- `needle` starts the character list `hay`. -/
def startsChars : List Char → List Char → Bool
  | [], _ => true
  | _ :: _, [] => false
  | a :: as, b :: bs => a == b && startsChars as bs

/-- `needle` occurs contiguously somewhere in the character list `hay`. -/
def infixChars (needle : List Char) : List Char → Bool
  | [] => startsChars needle []
  | b :: bs => startsChars needle (b :: bs) || infixChars needle bs

/-- `needle` occurs as a contiguous substring of `hay` (Python's
`needle in hay` on strings). -/
def substrB (needle hay : String) : Bool :=
  infixChars needle.toList hay.toList

namespace VerifyLesson

/-- Environment for one run of `verify_lesson.py`: the page URL observed
after the initial navigation, the pure visibility/count queries, and the
outcome (`none` = success, `some msg` = exception) of every fallible
browser operation, listed in program order. -/
structure Env where
  gotoRoot : Option String
  urlAfterRoot : String
  addProfileVisible : Bool
  clickAddProfile : Option String
  fillProfileName : Option String
  clickLetsPlay : Option String
  waitUrlAfterAdd : Option String
  profileBtnCount : Nat
  clickFirstProfile : Option String
  waitUrlAfterSelect : Option String
  gotoLesson1 : Option String
  waitLessonPage1 : Option String
  practiceVisible1 : Bool
  clickPractice1 : Option String
  gotoLesson2 : Option String
  waitLessonPage2 : Option String
  practiceVisible2 : Bool
  clickPractice2 : Option String
  waitSvg : Option String
deriving Repr, DecidableEq

/-- The profile-selection block of `verify_lesson.py` (lines 9-25): if the
current URL contains `/profiles`, branch on whether `.add-profile` is
visible, else on whether any `.profile-content-btn` exists; the whole
interaction sits in a `try/except` that logs the failure and re-raises.
Program points: 2 click `.add-profile`, 3 `wait_for_timeout(500)`,
4 fill `#profile-name`, 5 click the Lets-Play button, 6 `wait_for_url`
after adding, 7 click first `.profile-content-btn`, 8 `wait_for_url`
after selecting. -/
def profileSelect (env : Env) : Script :=
  if substrB "/profiles" env.urlAfterRoot then block [
    emit "On profiles page",
    tryc
      (if env.addProfileVisible then block [
          emit "Clicking Add Player",
          attempt 2 env.clickAddProfile,
          attempt 3 none,
          attempt 4 env.fillProfileName,
          attempt 5 env.clickLetsPlay,
          attempt 6 env.waitUrlAfterAdd]
       else if env.profileBtnCount > 0 then block [
          emit "Selecting existing profile",
          attempt 7 env.clickFirstProfile,
          attempt 8 env.waitUrlAfterSelect]
       else skip)
      (fun e => block [
        emit ("Profile selection failed: " ++ e),
        raiseS e])]
  else skip

/-- The lesson-1 section of `verify_lesson.py` (lines 27-34).  Program
points: 9 `goto` lesson 1, 10 wait `.lesson-page` (10000ms), 11 click the
practice button, 12 `wait_for_timeout(1000)`. -/
def lessonOne (env : Env) : Script := block [
  emit "Navigating to lesson 1...",
  nav 9 "http://localhost:5173/lesson/1" env.gotoLesson1,
  attempt 10 env.waitLessonPage1,
  if env.practiceVisible1 then block [
    attempt 11 env.clickPractice1,
    attempt 12 none]
  else skip,
  shot "verification/lesson_1_board.png"]

/-- The lesson-2 section of `verify_lesson.py` (lines 36-47).  Program
points: 13 `goto` lesson 2, 14 wait `.lesson-page` (10000ms), 15 click the
practice button, 16 `wait_for_timeout(1000)`, 17 wait `svg` (5000ms). -/
def lessonTwo (env : Env) : Script := block [
  emit "Navigating to lesson 2...",
  nav 13 "http://localhost:5173/lesson/2" env.gotoLesson2,
  attempt 14 env.waitLessonPage2,
  if env.practiceVisible2 then block [
    attempt 15 env.clickPractice2,
    attempt 16 none]
  else skip,
  attempt 17 env.waitSvg,
  shot "verification/lesson_2_board.png",
  emit "Lesson 2 screenshot taken"]

/-- Shallow embedding of the function `verify_lesson(page)` of
`verify_lesson.py`: navigate to the root (program point 0), wait 2000ms
(point 1), run the profile-selection block, then the lesson-1 and lesson-2
sections. -/
def verify_lesson (env : Env) : Script := block [
  emit "Navigating to root...",
  nav 0 "http://localhost:5173/" env.gotoRoot,
  attempt 1 none,
  profileSelect env,
  lessonOne env,
  lessonTwo env]

/-- Shallow embedding of the `__main__` block of `verify_lesson.py`: it
runs `verify_lesson(page)` inside `try/except Exception`, printing
`Error: ...` on any exception (the exception is swallowed), and finally
closes the browser. -/
def lessonMain (env : Env) : Script :=
  seqS (tryc (verify_lesson env) (fun e => emit ("Error: " ++ e))) skip

/-- A complete run of the script `verify_lesson.py` from the empty state. -/
def runLesson (env : Env) : St × Option String := lessonMain env St.init

/-- A run of only the function `verify_lesson` (to observe its own
propagating exception before `__main__` swallows it). -/
def runVerifyLesson (env : Env) : St × Option String := verify_lesson env St.init

end VerifyLesson

/-- The process exit status determined by a run outcome: a Python script
exits 0 when no exception propagates out of the top level, and nonzero
(the interpreter uses 1) when an uncaught exception terminates it. -/
def exitCode (r : St × Option String) : Nat :=
  match r.2 with
  | none => 0
  | some _ => 1

/-- An event emitted by the page while `verify_lesson_page.py` runs: a
console message or a page error, each carrying its text. -/
inductive BrowserEvent where
  | console (text : String)
  | pageerror (text : String)
deriving Repr, DecidableEq

/-- The two event handlers registered by `verify_lesson_page.py` (lines
9-10): each console message is printed as `BROWSER CONSOLE: <text>` and
each page error as `BROWSER ERROR: <text>`. -/
def consoleHandler : BrowserEvent → String
  | .console t => "BROWSER CONSOLE: " ++ t
  | .pageerror t => "BROWSER ERROR: " ++ t

/-- The lines printed by the registered handlers for a sequence of events
delivered in emission order (Playwright invokes each `page.on` handler
once per event, in order). -/
def handlerOutput (events : List BrowserEvent) : List String :=
  events.map consoleHandler

namespace VerifyLessonPage

/-- Environment for one run of `verify_lesson_page.py`: the page URL after
the initial navigation (the script never reads it, but the browser has
one), the pure `count()` queries, and the outcome (`none` = success,
`some msg` = exception) of every fallible browser operation in program
order. -/
structure Env where
  urlAfterRoot : String
  gotoRoot : Option String
  waitChessKidsHeading : Option String
  profileBtnCount : Nat
  clickFirstProfile : Option String
  addProfileCount : Nat
  clickAddProfile : Option String
  waitProfileNameInput : Option String
  fillProfileName : Option String
  clickLetsPlay : Option String
  gotoLesson2 : Option String
  waitStoryButton : Option String
  clickStoryButton : Option String
  waitChessBoard : Option String
deriving Repr, DecidableEq

/-- The profile-selection block of `verify_lesson_page.py` (lines 16-40):
wait for the Chess-Kids heading (program point 1, 3000ms timeout), then
select the first profile (point 2) or create one (points 3-6: click
`.add-profile`, wait for `input#profile-name`, fill it, click the
Lets-Play button); any exception is caught and only logged. -/
def profileStep (env : Env) : Script :=
  tryc
    (block [
      attempt 1 env.waitChessKidsHeading,
      emit "On Profile Select Page",
      emit ("Found " ++ toString env.profileBtnCount ++ " existing profiles"),
      if env.profileBtnCount > 0 then block [
        emit "Selecting first profile...",
        attempt 2 env.clickFirstProfile]
      else block [
        emit "Creating new profile...",
        if env.addProfileCount > 0 then attempt 3 env.clickAddProfile
        else skip,
        attempt 4 env.waitProfileNameInput,
        attempt 5 env.fillProfileName,
        attempt 6 env.clickLetsPlay]])
    (fun e => emit ("Not on profile select or error: " ++ e))

/-- The story-button block of `verify_lesson_page.py` (lines 46-51): wait
for the story button (program point 8, 5000ms) and click it (point 9); any
exception is caught and only logged. -/
def storyStep (env : Env) : Script :=
  tryc
    (block [
      attempt 8 env.waitStoryButton,
      attempt 9 env.clickStoryButton,
      emit "Clicked story button."])
    (fun e => emit ("Story button not found or error: " ++ e))

/-- The chess-board block of `verify_lesson_page.py` (lines 54-60): wait
for `.chess-board-container` (program point 10, 5000ms); on failure log,
write `verification/error_screenshot.png` and re-raise. -/
def boardStep (env : Env) : Script :=
  tryc
    (block [
      attempt 10 env.waitChessBoard,
      emit "Found chess board container."])
    (fun e => block [
      emit "Timed out waiting for chess board.",
      shot "verification/error_screenshot.png",
      raiseS e])

/-- Shallow embedding of the function `run(playwright)` of
`verify_lesson_page.py`: navigate to the root (program point 0), run the
profile-selection block, navigate to lesson 2 (point 7), run the
story-button block, run the chess-board block, `time.sleep(2)` (point 11),
take the final screenshot, and close the browser. -/
def run (env : Env) : Script := block [
  emit "Navigating to root...",
  nav 0 "http://localhost:5173/" env.gotoRoot,
  profileStep env,
  emit "Navigating to Lesson 2...",
  nav 7 "http://localhost:5173/lesson/2" env.gotoLesson2,
  emit "Waiting for story button...",
  storyStep env,
  emit "Waiting for chess board...",
  boardStep env,
  attempt 11 none,
  emit "Taking screenshot...",
  shot "verification/lesson_page.png",
  skip]

/-- A complete run of the script `verify_lesson_page.py` from the empty
state: the module level calls `run(playwright)` with no surrounding
`try/except`, so an exception raised by `run` propagates out of the
process. -/
def runPage (env : Env) : St × Option String := run env St.init

end VerifyLessonPage

/-!
Generic facts about script fragments, used to reason compositionally about
the two embedded scripts.
-/

/-- A fragment only ever appends to the four effect lists: whatever was
already logged, written, navigated or attempted stays, in order, at the
front. -/
def ExtendsSt (a : Script) : Prop :=
  ∀ s, ∃ d1 d2 d3 d4,
    (a s).1.log = s.log ++ d1 ∧ (a s).1.shots = s.shots ++ d2 ∧
    (a s).1.gotos = s.gotos ++ d3 ∧ (a s).1.trace = s.trace ++ d4

/-- A fragment that never raises an exception. -/
def Progresses (a : Script) : Prop := ∀ s, (a s).2 = none

/-- A fragment that attempts no browser step. -/
def NoSteps (a : Script) : Prop := ∀ s, (a s).1.trace = s.trace

/-- A fragment that writes no screenshot. -/
def NoShots (a : Script) : Prop := ∀ s, (a s).1.shots = s.shots

/-- A fragment that performs no navigation. -/
def NoGotos (a : Script) : Prop := ∀ s, (a s).1.gotos = s.gotos

/-- A fragment whose attempted steps form a duplicate-free list of program
points in the half-open interval `[lo, hi)`, appended to the trace. -/
def StepsIn (a : Script) (lo hi : Nat) : Prop :=
  ∀ s, ∃ t, (a s).1.trace = s.trace ++ t ∧ t.Nodup ∧ ∀ i ∈ t, lo ≤ i ∧ i < hi

/-- Every line the fragment prints satisfies `P` (assuming the lines
already printed do). -/
def LogAll (P : String → Prop) (a : Script) : Prop :=
  ∀ s, (∀ m ∈ s.log, P m) → ∀ m ∈ (a s).1.log, P m

/-- All fallible browser operations of a `verify_lesson.py` run succeed
(the application is reachable and every awaited element appears within its
timeout); the pure queries (URL, visibility, counts) are unconstrained. -/
def VerifyLesson.Env.allOk (env : VerifyLesson.Env) : Prop :=
  env.gotoRoot = none ∧ env.clickAddProfile = none ∧
  env.fillProfileName = none ∧ env.clickLetsPlay = none ∧
  env.waitUrlAfterAdd = none ∧ env.clickFirstProfile = none ∧
  env.waitUrlAfterSelect = none ∧ env.gotoLesson1 = none ∧
  env.waitLessonPage1 = none ∧ env.clickPractice1 = none ∧
  env.gotoLesson2 = none ∧ env.waitLessonPage2 = none ∧
  env.clickPractice2 = none ∧ env.waitSvg = none

/-- All fallible browser operations of a `verify_lesson_page.py` run
succeed; the pure queries are unconstrained. -/
def VerifyLessonPage.Env.allOk (env : VerifyLessonPage.Env) : Prop :=
  env.gotoRoot = none ∧ env.waitChessKidsHeading = none ∧
  env.clickFirstProfile = none ∧ env.clickAddProfile = none ∧
  env.waitProfileNameInput = none ∧ env.fillProfileName = none ∧
  env.clickLetsPlay = none ∧ env.gotoLesson2 = none ∧
  env.waitStoryButton = none ∧ env.clickStoryButton = none ∧
  env.waitChessBoard = none

/-- A `verify_lesson.py` run in which the application serves every page
and element except that `.lesson-page` never appears on lesson 1: the
`wait_for_selector(".lesson-page", timeout=10000)` call times out.  The
root page is not the profiles page, so no profile interaction happens. -/
def envLessonTimeout : VerifyLesson.Env :=
  ⟨none, "http://localhost:5173/", false, none, none, none, none, 0, none,
   none, none, some "Timeout 10000ms exceeded", false, none, none, none,
   false, none, none⟩

/-- A fully succeeding `verify_lesson.py` run: one existing profile is
shown on the profiles page and every operation succeeds. -/
def envLessonAllOk : VerifyLesson.Env :=
  ⟨none, "http://localhost:5173/profiles", false, none, none, none, none, 1,
   none, none, none, none, true, none, none, none, true, none, none⟩

/-- A fully succeeding `verify_lesson_page.py` run: the Chess-Kids heading
appears, one profile exists, and every operation succeeds.  After the root
navigation the browser URL is the root URL (which does not contain the
substring `/profiles`). -/
def envPageAllOk : VerifyLessonPage.Env :=
  ⟨"http://localhost:5173/", none, none, 1, none, 0, none, none, none, none,
   none, none, none, none⟩

/-- A `verify_lesson_page.py` run in which everything succeeds except that
`.chess-board-container` never appears: that wait times out. -/
def envBoardTimeout : VerifyLessonPage.Env :=
  ⟨"http://localhost:5173/", none, none, 1, none, 0, none, none, none, none,
   none, none, none, some "Timeout 5000ms exceeded"⟩

/-- A `verify_lesson_page.py` run in which everything succeeds except the
story button, which never appears: that wait times out and the subsequent
click is never attempted. -/
def envStoryTimeout : VerifyLessonPage.Env :=
  ⟨"http://localhost:5173/", none, none, 1, none, 0, none, none, none, none,
   none, some "Timeout 5000ms exceeded", none, none⟩

/-- A `verify_lesson.py` run that lands on the profiles page with the
`.add-profile` element visible, but in which clicking it raises. -/
def envProfileClickFail : VerifyLesson.Env :=
  ⟨none, "http://localhost:5173/profiles", true, some "Click failed", none,
   none, none, 0, none, none, none, none, false, none, none, none, false,
   none, none⟩

/-- A `verify_lesson_page.py` run in which the wait for the Chess-Kids
heading times out (the profile-selection block raises and is caught) and
everything afterwards succeeds. -/
def envHeadingTimeout : VerifyLessonPage.Env :=
  ⟨"http://localhost:5173/", none, some "Timeout 3000ms exceeded", 0, none,
   0, none, none, none, none, none, none, none, none⟩

/-- A `verify_lesson.py` run that lands on the profiles page with no
`.add-profile` visible and no `.profile-content-btn` present; everything
else succeeds. -/
def envEmptyProfiles : VerifyLesson.Env :=
  ⟨none, "http://localhost:5173/profiles", false, none, none, none, none, 0,
   none, none, none, none, false, none, none, none, false, none, none⟩

theorem block_nil : block [] = skip := rfl

theorem block_cons (x : Script) (xs : List Script) :
    block (x :: xs) = seqS x (block xs) := rfl

theorem seqS_ok {a : Script} (b : Script) {s : St} (h : (a s).2 = none) :
    seqS a b s = b (a s).1 := by
  simp [seqS, h]

theorem seqS_err {a : Script} (b : Script) {s : St} {e : String}
    (h : (a s).2 = some e) : seqS a b s = ((a s).1, some e) := by
  simp [seqS, h]

theorem tryc_ok {body : Script} (hd : String → Script) {s : St}
    (h : (body s).2 = none) : tryc body hd s = ((body s).1, none) := by
  simp [tryc, h]

theorem tryc_err {body : Script} (hd : String → Script) {s : St} {e : String}
    (h : (body s).2 = some e) : tryc body hd s = hd e (body s).1 := by
  simp [tryc, h]

theorem extendsSt_emit (m : String) : ExtendsSt (emit m) := fun s =>
  ⟨[m], [], [], [], by simp [emit]⟩

theorem extendsSt_shot (p : String) : ExtendsSt (shot p) := fun s =>
  ⟨[], [p], [], [], by simp [shot]⟩

theorem extendsSt_attempt (i : Nat) (r : Option String) :
    ExtendsSt (attempt i r) := fun s =>
  ⟨[], [], [], [i], by simp [attempt]⟩

theorem extendsSt_nav (i : Nat) (u : String) (r : Option String) :
    ExtendsSt (nav i u r) := fun s =>
  ⟨[], [], [u], [i], by simp [nav]⟩

theorem extendsSt_skip : ExtendsSt skip := fun s =>
  ⟨[], [], [], [], by simp [skip]⟩

theorem extendsSt_raiseS (e : String) : ExtendsSt (raiseS e) := fun s =>
  ⟨[], [], [], [], by simp [raiseS]⟩

theorem extendsSt_seqS {a b : Script} (ha : ExtendsSt a) (hb : ExtendsSt b) :
    ExtendsSt (seqS a b) := by
  intro s
  obtain ⟨d1, d2, d3, d4, h1, h2, h3, h4⟩ := ha s
  rcases h : (a s).2 with _ | e
  · obtain ⟨e1, e2, e3, e4, g1, g2, g3, g4⟩ := hb ((a s).1)
    exact ⟨d1 ++ e1, d2 ++ e2, d3 ++ e3, d4 ++ e4, by
      simp [seqS_ok _ h, g1, g2, g3, g4, h1, h2, h3, h4]⟩
  · exact ⟨d1, d2, d3, d4, by simp [seqS_err _ h, h1, h2, h3, h4]⟩

theorem extendsSt_tryc {body : Script} {hd : String → Script}
    (hb : ExtendsSt body) (hh : ∀ e, ExtendsSt (hd e)) :
    ExtendsSt (tryc body hd) := by
  intro s
  obtain ⟨d1, d2, d3, d4, h1, h2, h3, h4⟩ := hb s
  rcases h : (body s).2 with _ | e
  · exact ⟨d1, d2, d3, d4, by simp [tryc_ok _ h, h1, h2, h3, h4]⟩
  · obtain ⟨e1, e2, e3, e4, g1, g2, g3, g4⟩ := hh e ((body s).1)
    exact ⟨d1 ++ e1, d2 ++ e2, d3 ++ e3, d4 ++ e4, by
      simp [tryc_err _ h, g1, g2, g3, g4, h1, h2, h3, h4]⟩

theorem extendsSt_ite {c : Prop} [Decidable c] {a b : Script}
    (ha : ExtendsSt a) (hb : ExtendsSt b) : ExtendsSt (if c then a else b) := by
  by_cases hc : c <;> simp [hc] <;> assumption

theorem extendsSt_block {l : List Script} (h : ∀ a ∈ l, ExtendsSt a) :
    ExtendsSt (block l) := by
  induction l with
  | nil => exact extendsSt_skip
  | cons x xs ih =>
    rw [block_cons]
    exact extendsSt_seqS (h x (by simp)) (ih fun a ha => h a (by simp [ha]))

theorem progresses_emit (m : String) : Progresses (emit m) := fun _ => rfl

theorem progresses_shot (p : String) : Progresses (shot p) := fun _ => rfl

theorem progresses_skip : Progresses skip := fun _ => rfl

theorem progresses_attempt_ok (i : Nat) : Progresses (attempt i none) :=
  fun _ => rfl

theorem progresses_nav_ok (i : Nat) (u : String) : Progresses (nav i u none) :=
  fun _ => rfl

theorem progresses_seqS {a b : Script} (ha : Progresses a) (hb : Progresses b) :
    Progresses (seqS a b) := by
  intro s
  rw [seqS_ok _ (ha s)]
  exact hb _

theorem progresses_tryc (body : Script) {hd : String → Script}
    (hh : ∀ e, Progresses (hd e)) : Progresses (tryc body hd) := by
  intro s
  rcases h : (body s).2 with _ | e
  · rw [tryc_ok _ h]
  · rw [tryc_err _ h]
    exact hh e _

theorem progresses_ite {c : Prop} [Decidable c] {a b : Script}
    (ha : Progresses a) (hb : Progresses b) :
    Progresses (if c then a else b) := by
  by_cases hc : c <;> simp [hc] <;> assumption

theorem progresses_block {l : List Script} (h : ∀ a ∈ l, Progresses a) :
    Progresses (block l) := by
  induction l with
  | nil => exact progresses_skip
  | cons x xs ih =>
    rw [block_cons]
    exact progresses_seqS (h x (by simp)) (ih fun a ha => h a (by simp [ha]))

theorem seqS_skip_left (a : Script) : seqS skip a = a := by
  funext s
  rw [seqS_ok _ (progresses_skip s)]
  rfl

theorem seqS_skip_right (a : Script) : seqS a skip = a := by
  funext s
  rcases h : (a s).2 with _ | e
  · rw [seqS_ok _ h]
    show ((a s).1, none) = a s
    rw [← h]
  · rw [seqS_err _ h, ← h]

theorem seqS_assoc (a b c : Script) : seqS (seqS a b) c = seqS a (seqS b c) := by
  funext s
  rcases h : (a s).2 with _ | e
  · rw [seqS_ok (seqS b c) h]
    rcases hb : (b (a s).1).2 with _ | e2
    · rw [seqS_ok c hb]
      have h2 : (seqS a b s).2 = (b (a s).1).2 := by rw [seqS_ok _ h]
      rw [seqS_ok c (by rw [h2, hb])]
      rw [seqS_ok b h]
    · rw [seqS_err c hb]
      have h2 : (seqS a b s).2 = some e2 := by rw [seqS_ok _ h, hb]
      rw [seqS_err c h2, seqS_ok b h]
  · have h2 : (seqS a b s).2 = some e := by rw [seqS_err _ h]
    rw [seqS_err c h2, seqS_err (seqS b c) h]
    have h3 : (seqS a b s).1 = (a s).1 := by rw [seqS_err _ h]
    rw [h3]

theorem block_append (l1 l2 : List Script) :
    block (l1 ++ l2) = seqS (block l1) (block l2) := by
  induction l1 with
  | nil => rw [block_nil, seqS_skip_left]; rfl
  | cons x xs ih =>
    rw [List.cons_append, block_cons, block_cons, ih, seqS_assoc]

theorem block_step {x : Script} {xs : List Script} {s : St}
    (h : (x s).2 = none) : block (x :: xs) s = block xs (x s).1 := by
  rw [block_cons]
  exact seqS_ok _ h

theorem noSteps_emit (m : String) : NoSteps (emit m) := fun _ => rfl

theorem noSteps_shot (p : String) : NoSteps (shot p) := fun _ => rfl

theorem noSteps_skip : NoSteps skip := fun _ => rfl

theorem noSteps_raiseS (e : String) : NoSteps (raiseS e) := fun _ => rfl

theorem noSteps_seqS {a b : Script} (ha : NoSteps a) (hb : NoSteps b) :
    NoSteps (seqS a b) := by
  intro s
  rcases h : (a s).2 with _ | e
  · rw [seqS_ok _ h, hb, ha]
  · rw [seqS_err _ h]
    exact ha s

theorem noSteps_block {l : List Script} (h : ∀ a ∈ l, NoSteps a) :
    NoSteps (block l) := by
  induction l with
  | nil => exact noSteps_skip
  | cons x xs ih =>
    rw [block_cons]
    exact noSteps_seqS (h x (by simp)) (ih fun a ha => h a (by simp [ha]))

theorem noShots_emit (m : String) : NoShots (emit m) := fun _ => rfl

theorem noShots_attempt (i : Nat) (r : Option String) : NoShots (attempt i r) :=
  fun _ => rfl

theorem noShots_nav (i : Nat) (u : String) (r : Option String) :
    NoShots (nav i u r) := fun _ => rfl

theorem noShots_skip : NoShots skip := fun _ => rfl

theorem noShots_raiseS (e : String) : NoShots (raiseS e) := fun _ => rfl

theorem noShots_seqS {a b : Script} (ha : NoShots a) (hb : NoShots b) :
    NoShots (seqS a b) := by
  intro s
  rcases h : (a s).2 with _ | e
  · rw [seqS_ok _ h, hb, ha]
  · rw [seqS_err _ h]
    exact ha s

theorem noShots_tryc {body : Script} {hd : String → Script}
    (hb : NoShots body) (hh : ∀ e, NoShots (hd e)) : NoShots (tryc body hd) := by
  intro s
  rcases h : (body s).2 with _ | e
  · rw [tryc_ok _ h]
    exact hb s
  · rw [tryc_err _ h, hh, hb]

theorem noShots_ite {c : Prop} [Decidable c] {a b : Script}
    (ha : NoShots a) (hb : NoShots b) : NoShots (if c then a else b) := by
  by_cases hc : c <;> simp [hc] <;> assumption

theorem noShots_block {l : List Script} (h : ∀ a ∈ l, NoShots a) :
    NoShots (block l) := by
  induction l with
  | nil => exact noShots_skip
  | cons x xs ih =>
    rw [block_cons]
    exact noShots_seqS (h x (by simp)) (ih fun a ha => h a (by simp [ha]))

theorem stepsIn_of_noSteps {a : Script} (h : NoSteps a) (lo hi : Nat) :
    StepsIn a lo hi := by
  intro s
  exact ⟨[], by simp [h s], by simp, by simp⟩

theorem stepsIn_attempt {i lo hi : Nat} (h1 : lo ≤ i) (h2 : i < hi)
    (r : Option String) : StepsIn (attempt i r) lo hi := by
  intro s
  exact ⟨[i], by simp [attempt], by simp, by simp [h1, h2]⟩

theorem stepsIn_nav {i lo hi : Nat} (h1 : lo ≤ i) (h2 : i < hi)
    (u : String) (r : Option String) : StepsIn (nav i u r) lo hi := by
  intro s
  exact ⟨[i], by simp [nav], by simp, by simp [h1, h2]⟩

theorem stepsIn_mono {a : Script} {lo hi lo' hi' : Nat} (hl : lo' ≤ lo)
    (hh : hi ≤ hi') (h : StepsIn a lo hi) : StepsIn a lo' hi' := by
  intro s
  obtain ⟨t, ht, hn, hb⟩ := h s
  exact ⟨t, ht, hn, fun i hi =>
    ⟨le_trans hl (hb i hi).1, lt_of_lt_of_le (hb i hi).2 hh⟩⟩

theorem stepsIn_seqS {a b : Script} {lo mid hi : Nat}
    (ha : StepsIn a lo mid) (hb : StepsIn b mid hi) (hlm : lo ≤ mid)
    (hmh : mid ≤ hi) : StepsIn (seqS a b) lo hi := by
  intro s
  obtain ⟨t1, ht1, hn1, hb1⟩ := ha s
  rcases h : (a s).2 with _ | e
  · obtain ⟨t2, ht2, hn2, hb2⟩ := hb ((a s).1)
    refine ⟨t1 ++ t2, ?_, ?_, ?_⟩
    · rw [seqS_ok _ h, ht2, ht1, List.append_assoc]
    · refine List.Nodup.append hn1 hn2 ?_
      intro i hi1 hi2
      exact absurd (hb2 i hi2).1 (by simpa using (hb1 i hi1).2)
    · intro i hi
      rcases List.mem_append.mp hi with h1 | h2
      · exact ⟨(hb1 i h1).1, lt_of_lt_of_le (hb1 i h1).2 hmh⟩
      · exact ⟨le_trans hlm (hb2 i h2).1, (hb2 i h2).2⟩
  · refine ⟨t1, ?_, hn1, ?_⟩
    · rw [seqS_err _ h]
      exact ht1
    · intro i hi
      exact ⟨(hb1 i hi).1, lt_of_lt_of_le (hb1 i hi).2 hmh⟩

theorem stepsIn_tryc {body : Script} {hd : String → Script} {lo hi : Nat}
    (hb : StepsIn body lo hi) (hh : ∀ e, NoSteps (hd e)) :
    StepsIn (tryc body hd) lo hi := by
  intro s
  obtain ⟨t, ht, hn, hbd⟩ := hb s
  rcases h : (body s).2 with _ | e
  · exact ⟨t, by rw [tryc_ok _ h]; exact ht, hn, hbd⟩
  · exact ⟨t, by rw [tryc_err _ h, hh e]; exact ht, hn, hbd⟩

theorem stepsIn_ite {c : Prop} [Decidable c] {a b : Script} {lo hi : Nat}
    (ha : StepsIn a lo hi) (hb : StepsIn b lo hi) :
    StepsIn (if c then a else b) lo hi := by
  by_cases hc : c <;> simp [hc] <;> assumption

theorem logAll_emit {P : String → Prop} {m : String} (hm : P m) :
    LogAll P (emit m) := by
  intro s hs m2 hm2
  simp [emit] at hm2
  rcases hm2 with h | h
  · exact hs m2 h
  · exact h ▸ hm

theorem logAll_of_logEq {P : String → Prop} {a : Script}
    (h : ∀ s, (a s).1.log = s.log) : LogAll P a := by
  intro s hs m hm
  rw [h s] at hm
  exact hs m hm

theorem logAll_shot (P : String → Prop) (p : String) : LogAll P (shot p) :=
  logAll_of_logEq fun _ => rfl

theorem logAll_attempt (P : String → Prop) (i : Nat) (r : Option String) :
    LogAll P (attempt i r) :=
  logAll_of_logEq fun _ => rfl

theorem logAll_nav (P : String → Prop) (i : Nat) (u : String)
    (r : Option String) : LogAll P (nav i u r) :=
  logAll_of_logEq fun _ => rfl

theorem logAll_skip (P : String → Prop) : LogAll P skip :=
  logAll_of_logEq fun _ => rfl

theorem logAll_raiseS (P : String → Prop) (e : String) : LogAll P (raiseS e) :=
  logAll_of_logEq fun _ => rfl

theorem logAll_seqS {P : String → Prop} {a b : Script} (ha : LogAll P a)
    (hb : LogAll P b) : LogAll P (seqS a b) := by
  intro s hs m hm
  rcases h : (a s).2 with _ | e
  · rw [seqS_ok _ h] at hm
    exact hb _ (ha s hs) m hm
  · rw [seqS_err _ h] at hm
    exact ha s hs m hm

theorem logAll_tryc {P : String → Prop} {body : Script} {hd : String → Script}
    (hb : LogAll P body) (hh : ∀ e, LogAll P (hd e)) :
    LogAll P (tryc body hd) := by
  intro s hs m hm
  rcases h : (body s).2 with _ | e
  · rw [tryc_ok _ h] at hm
    exact hb s hs m hm
  · rw [tryc_err _ h] at hm
    exact hh e _ (hb s hs) m hm

theorem logAll_ite {P : String → Prop} {c : Prop} [Decidable c] {a b : Script}
    (ha : LogAll P a) (hb : LogAll P b) : LogAll P (if c then a else b) := by
  by_cases hc : c <;> simp [hc] <;> assumption

theorem logAll_block {P : String → Prop} {l : List Script}
    (h : ∀ a ∈ l, LogAll P a) : LogAll P (block l) := by
  induction l with
  | nil => exact logAll_skip P
  | cons x xs ih =>
    rw [block_cons]
    exact logAll_seqS (h x (by simp)) (ih fun a ha => h a (by simp [ha]))

namespace VerifyLesson

theorem noSteps_profileHandler (e : String) :
    NoSteps (block [emit ("Profile selection failed: " ++ e), raiseS e]) := by
  rw [block_cons, block_cons, block_nil]
  exact noSteps_seqS (noSteps_emit _) (noSteps_seqS (noSteps_raiseS _) noSteps_skip)

theorem stepsIn_profileSelect (env : Env) : StepsIn (profileSelect env) 2 9 := by
  unfold profileSelect
  simp only [block_cons, block_nil]
  refine stepsIn_ite ?_ (stepsIn_of_noSteps noSteps_skip 2 9)
  refine @stepsIn_seqS _ _ 2 2 9 (stepsIn_of_noSteps (noSteps_emit _) 2 2) ?_
    (by omega) (by omega)
  refine @stepsIn_seqS _ _ 2 9 9 ?_ (stepsIn_of_noSteps noSteps_skip 9 9)
    (by omega) (by omega)
  refine stepsIn_tryc ?_ noSteps_profileHandler
  refine stepsIn_ite ?_ (stepsIn_ite ?_ (stepsIn_of_noSteps noSteps_skip 2 9))
  · refine @stepsIn_seqS _ _ 2 2 9 (stepsIn_of_noSteps (noSteps_emit _) 2 2) ?_
      (by omega) (by omega)
    refine @stepsIn_seqS _ _ 2 3 9 (@stepsIn_attempt 2 2 3 (by omega) (by omega) _)
      ?_ (by omega) (by omega)
    refine @stepsIn_seqS _ _ 3 4 9 (@stepsIn_attempt 3 3 4 (by omega) (by omega) _)
      ?_ (by omega) (by omega)
    refine @stepsIn_seqS _ _ 4 5 9 (@stepsIn_attempt 4 4 5 (by omega) (by omega) _)
      ?_ (by omega) (by omega)
    refine @stepsIn_seqS _ _ 5 6 9 (@stepsIn_attempt 5 5 6 (by omega) (by omega) _)
      ?_ (by omega) (by omega)
    refine @stepsIn_seqS _ _ 6 7 9 (@stepsIn_attempt 6 6 7 (by omega) (by omega) _)
      (stepsIn_of_noSteps noSteps_skip 7 9) (by omega) (by omega)
  · refine @stepsIn_seqS _ _ 2 7 9 (stepsIn_of_noSteps (noSteps_emit _) 2 7) ?_
      (by omega) (by omega)
    refine @stepsIn_seqS _ _ 7 8 9 (@stepsIn_attempt 7 7 8 (by omega) (by omega) _)
      ?_ (by omega) (by omega)
    refine @stepsIn_seqS _ _ 8 9 9 (@stepsIn_attempt 8 8 9 (by omega) (by omega) _)
      (stepsIn_of_noSteps noSteps_skip 9 9) (by omega) (by omega)

theorem stepsIn_lessonOne (env : Env) : StepsIn (lessonOne env) 9 13 := by
  unfold lessonOne
  simp only [block_cons, block_nil]
  refine @stepsIn_seqS _ _ 9 9 13 (stepsIn_of_noSteps (noSteps_emit _) 9 9) ?_
    (by omega) (by omega)
  refine @stepsIn_seqS _ _ 9 10 13 (@stepsIn_nav 9 9 10 (by omega) (by omega) _ _)
    ?_ (by omega) (by omega)
  refine @stepsIn_seqS _ _ 10 11 13
    (@stepsIn_attempt 10 10 11 (by omega) (by omega) _) ?_ (by omega) (by omega)
  refine @stepsIn_seqS _ _ 11 13 13 ?_
    (stepsIn_of_noSteps (noSteps_seqS (noSteps_shot _) noSteps_skip) 13 13)
    (by omega) (by omega)
  refine stepsIn_ite ?_ (stepsIn_of_noSteps noSteps_skip 11 13)
  refine @stepsIn_seqS _ _ 11 12 13
    (@stepsIn_attempt 11 11 12 (by omega) (by omega) _) ?_ (by omega) (by omega)
  exact @stepsIn_seqS _ _ 12 13 13
    (@stepsIn_attempt 12 12 13 (by omega) (by omega) _)
    (stepsIn_of_noSteps noSteps_skip 13 13) (by omega) (by omega)

theorem stepsIn_lessonTwo (env : Env) : StepsIn (lessonTwo env) 13 18 := by
  unfold lessonTwo
  simp only [block_cons, block_nil]
  refine @stepsIn_seqS _ _ 13 13 18 (stepsIn_of_noSteps (noSteps_emit _) 13 13)
    ?_ (by omega) (by omega)
  refine @stepsIn_seqS _ _ 13 14 18
    (@stepsIn_nav 13 13 14 (by omega) (by omega) _ _) ?_ (by omega) (by omega)
  refine @stepsIn_seqS _ _ 14 15 18
    (@stepsIn_attempt 14 14 15 (by omega) (by omega) _) ?_ (by omega) (by omega)
  refine @stepsIn_seqS _ _ 15 17 18 ?_ ?_ (by omega) (by omega)
  · refine stepsIn_ite ?_ (stepsIn_of_noSteps noSteps_skip 15 17)
    refine @stepsIn_seqS _ _ 15 16 17
      (@stepsIn_attempt 15 15 16 (by omega) (by omega) _) ?_ (by omega) (by omega)
    exact @stepsIn_seqS _ _ 16 17 17
      (@stepsIn_attempt 16 16 17 (by omega) (by omega) _)
      (stepsIn_of_noSteps noSteps_skip 17 17) (by omega) (by omega)
  · refine @stepsIn_seqS _ _ 17 18 18
      (@stepsIn_attempt 17 17 18 (by omega) (by omega) _) ?_ (by omega) (by omega)
    exact stepsIn_of_noSteps
      (noSteps_seqS (noSteps_shot _) (noSteps_seqS (noSteps_emit _) noSteps_skip))
      18 18

theorem stepsIn_verify_lesson (env : Env) : StepsIn (verify_lesson env) 0 18 := by
  unfold verify_lesson
  simp only [block_cons, block_nil]
  refine @stepsIn_seqS _ _ 0 0 18 (stepsIn_of_noSteps (noSteps_emit _) 0 0) ?_
    (by omega) (by omega)
  refine @stepsIn_seqS _ _ 0 1 18 (@stepsIn_nav 0 0 1 (by omega) (by omega) _ _)
    ?_ (by omega) (by omega)
  refine @stepsIn_seqS _ _ 1 2 18 (@stepsIn_attempt 1 1 2 (by omega) (by omega) _)
    ?_ (by omega) (by omega)
  refine @stepsIn_seqS _ _ 2 9 18 (stepsIn_profileSelect env) ?_ (by omega)
    (by omega)
  refine @stepsIn_seqS _ _ 9 13 18 (stepsIn_lessonOne env) ?_ (by omega) (by omega)
  exact @stepsIn_seqS _ _ 13 18 18 (stepsIn_lessonTwo env)
    (stepsIn_of_noSteps noSteps_skip 18 18) (by omega) (by omega)

theorem stepsIn_lessonMain (env : Env) : StepsIn (lessonMain env) 0 18 := by
  unfold lessonMain
  refine @stepsIn_seqS _ _ 0 18 18 ?_ (stepsIn_of_noSteps noSteps_skip 18 18)
    (by omega) (by omega)
  exact stepsIn_tryc (stepsIn_verify_lesson env) fun e => noSteps_emit _

theorem progresses_lessonMain (env : Env) : Progresses (lessonMain env) := by
  unfold lessonMain
  exact progresses_seqS
    (progresses_tryc _ fun e => progresses_emit _) progresses_skip

end VerifyLesson

namespace VerifyLessonPage

theorem progresses_profileStep (env : Env) : Progresses (profileStep env) :=
  progresses_tryc _ fun _ => progresses_emit _

theorem progresses_storyStep (env : Env) : Progresses (storyStep env) :=
  progresses_tryc _ fun _ => progresses_emit _

theorem noShots_profileStep (env : Env) : NoShots (profileStep env) := by
  unfold profileStep
  simp only [block_cons, block_nil]
  refine noShots_tryc ?_ fun e => noShots_emit _
  refine noShots_seqS (noShots_attempt _ _) ?_
  refine noShots_seqS (noShots_emit _) ?_
  refine noShots_seqS (noShots_emit _) ?_
  refine noShots_seqS ?_ noShots_skip
  refine noShots_ite ?_ ?_
  · exact noShots_seqS (noShots_emit _)
      (noShots_seqS (noShots_attempt _ _) noShots_skip)
  · refine noShots_seqS (noShots_emit _) ?_
    refine noShots_seqS (noShots_ite (noShots_attempt _ _) noShots_skip) ?_
    exact noShots_seqS (noShots_attempt _ _)
      (noShots_seqS (noShots_attempt _ _)
        (noShots_seqS (noShots_attempt _ _) noShots_skip))

theorem noShots_storyStep (env : Env) : NoShots (storyStep env) := by
  unfold storyStep
  simp only [block_cons, block_nil]
  refine noShots_tryc ?_ fun e => noShots_emit _
  exact noShots_seqS (noShots_attempt _ _)
    (noShots_seqS (noShots_attempt _ _)
      (noShots_seqS (noShots_emit _) noShots_skip))

theorem stepsIn_profileStep (env : Env) : StepsIn (profileStep env) 1 7 := by
  unfold profileStep
  simp only [block_cons, block_nil]
  refine stepsIn_tryc ?_ fun e => noSteps_emit _
  refine @stepsIn_seqS _ _ 1 2 7 (@stepsIn_attempt 1 1 2 (by omega) (by omega) _)
    ?_ (by omega) (by omega)
  refine @stepsIn_seqS _ _ 2 2 7 (stepsIn_of_noSteps (noSteps_emit _) 2 2) ?_
    (by omega) (by omega)
  refine @stepsIn_seqS _ _ 2 2 7 (stepsIn_of_noSteps (noSteps_emit _) 2 2) ?_
    (by omega) (by omega)
  refine @stepsIn_seqS _ _ 2 7 7 ?_ (stepsIn_of_noSteps noSteps_skip 7 7)
    (by omega) (by omega)
  refine stepsIn_ite ?_ ?_
  · refine @stepsIn_seqS _ _ 2 2 7 (stepsIn_of_noSteps (noSteps_emit _) 2 2) ?_
      (by omega) (by omega)
    exact @stepsIn_seqS _ _ 2 3 7 (@stepsIn_attempt 2 2 3 (by omega) (by omega) _)
      (stepsIn_of_noSteps noSteps_skip 3 7) (by omega) (by omega)
  · refine @stepsIn_seqS _ _ 2 3 7 (stepsIn_of_noSteps (noSteps_emit _) 2 3) ?_
      (by omega) (by omega)
    refine @stepsIn_seqS _ _ 3 4 7
      (stepsIn_ite (@stepsIn_attempt 3 3 4 (by omega) (by omega) _)
        (stepsIn_of_noSteps noSteps_skip 3 4)) ?_ (by omega) (by omega)
    refine @stepsIn_seqS _ _ 4 5 7 (@stepsIn_attempt 4 4 5 (by omega) (by omega) _)
      ?_ (by omega) (by omega)
    refine @stepsIn_seqS _ _ 5 6 7 (@stepsIn_attempt 5 5 6 (by omega) (by omega) _)
      ?_ (by omega) (by omega)
    exact @stepsIn_seqS _ _ 6 7 7 (@stepsIn_attempt 6 6 7 (by omega) (by omega) _)
      (stepsIn_of_noSteps noSteps_skip 7 7) (by omega) (by omega)

theorem stepsIn_storyStep (env : Env) : StepsIn (storyStep env) 8 10 := by
  unfold storyStep
  simp only [block_cons, block_nil]
  refine stepsIn_tryc ?_ fun e => noSteps_emit _
  refine @stepsIn_seqS _ _ 8 9 10 (@stepsIn_attempt 8 8 9 (by omega) (by omega) _)
    ?_ (by omega) (by omega)
  refine @stepsIn_seqS _ _ 9 10 10 (@stepsIn_attempt 9 9 10 (by omega) (by omega) _)
    ?_ (by omega) (by omega)
  exact stepsIn_of_noSteps (noSteps_seqS (noSteps_emit _) noSteps_skip) 10 10

theorem noSteps_boardHandler (e : String) :
    NoSteps (block [emit "Timed out waiting for chess board.",
      shot "verification/error_screenshot.png", raiseS e]) := by
  simp only [block_cons, block_nil]
  exact noSteps_seqS (noSteps_emit _)
    (noSteps_seqS (noSteps_shot _) (noSteps_seqS (noSteps_raiseS _) noSteps_skip))

theorem stepsIn_boardStep (env : Env) : StepsIn (boardStep env) 10 11 := by
  unfold boardStep
  refine stepsIn_tryc ?_ noSteps_boardHandler
  simp only [block_cons, block_nil]
  refine @stepsIn_seqS _ _ 10 11 11
    (@stepsIn_attempt 10 10 11 (by omega) (by omega) _) ?_ (by omega) (by omega)
  exact stepsIn_of_noSteps (noSteps_seqS (noSteps_emit _) noSteps_skip) 11 11

theorem stepsIn_run (env : Env) : StepsIn (run env) 0 12 := by
  unfold run
  simp only [block_cons, block_nil]
  refine @stepsIn_seqS _ _ 0 0 12 (stepsIn_of_noSteps (noSteps_emit _) 0 0) ?_
    (by omega) (by omega)
  refine @stepsIn_seqS _ _ 0 1 12 (@stepsIn_nav 0 0 1 (by omega) (by omega) _ _)
    ?_ (by omega) (by omega)
  refine @stepsIn_seqS _ _ 1 7 12 (stepsIn_profileStep env) ?_ (by omega)
    (by omega)
  refine @stepsIn_seqS _ _ 7 7 12 (stepsIn_of_noSteps (noSteps_emit _) 7 7) ?_
    (by omega) (by omega)
  refine @stepsIn_seqS _ _ 7 8 12 (@stepsIn_nav 7 7 8 (by omega) (by omega) _ _)
    ?_ (by omega) (by omega)
  refine @stepsIn_seqS _ _ 8 8 12 (stepsIn_of_noSteps (noSteps_emit _) 8 8) ?_
    (by omega) (by omega)
  refine @stepsIn_seqS _ _ 8 10 12 (stepsIn_storyStep env) ?_ (by omega) (by omega)
  refine @stepsIn_seqS _ _ 10 10 12 (stepsIn_of_noSteps (noSteps_emit _) 10 10)
    ?_ (by omega) (by omega)
  refine @stepsIn_seqS _ _ 10 11 12 (stepsIn_boardStep env) ?_ (by omega)
    (by omega)
  refine @stepsIn_seqS _ _ 11 12 12
    (@stepsIn_attempt 11 11 12 (by omega) (by omega) _) ?_ (by omega) (by omega)
  exact stepsIn_of_noSteps
    (noSteps_seqS (noSteps_emit _)
      (noSteps_seqS (noSteps_shot _) noSteps_skip)) 12 12

end VerifyLessonPage

theorem append_ne_of_data {a b t : String}
    (h : ∀ d : List Char, a.data ++ d = t.data → False) : a ++ b ≠ t := by
  intro he
  exact h b.data (by rw [← String.data_append]; exact congrArg String.data he)

namespace VerifyLesson

theorem extendsSt_profileSelect (env : Env) : ExtendsSt (profileSelect env) := by
  unfold profileSelect
  simp only [block_cons, block_nil]
  refine extendsSt_ite ?_ extendsSt_skip
  refine extendsSt_seqS (extendsSt_emit _) (extendsSt_seqS ?_ extendsSt_skip)
  refine extendsSt_tryc ?_ fun e =>
    extendsSt_seqS (extendsSt_emit _) (extendsSt_seqS (extendsSt_raiseS _)
      extendsSt_skip)
  refine extendsSt_ite ?_ (extendsSt_ite ?_ extendsSt_skip)
  · exact extendsSt_seqS (extendsSt_emit _)
      (extendsSt_seqS (extendsSt_attempt _ _)
        (extendsSt_seqS (extendsSt_attempt _ _)
          (extendsSt_seqS (extendsSt_attempt _ _)
            (extendsSt_seqS (extendsSt_attempt _ _)
              (extendsSt_seqS (extendsSt_attempt _ _) extendsSt_skip)))))
  · exact extendsSt_seqS (extendsSt_emit _)
      (extendsSt_seqS (extendsSt_attempt _ _)
        (extendsSt_seqS (extendsSt_attempt _ _) extendsSt_skip))

theorem extendsSt_lessonOne (env : Env) : ExtendsSt (lessonOne env) := by
  unfold lessonOne
  simp only [block_cons, block_nil]
  refine extendsSt_seqS (extendsSt_emit _) ?_
  refine extendsSt_seqS (extendsSt_nav _ _ _) ?_
  refine extendsSt_seqS (extendsSt_attempt _ _) ?_
  refine extendsSt_seqS ?_ (extendsSt_seqS (extendsSt_shot _) extendsSt_skip)
  exact extendsSt_ite
    (extendsSt_seqS (extendsSt_attempt _ _)
      (extendsSt_seqS (extendsSt_attempt _ _) extendsSt_skip)) extendsSt_skip

theorem extendsSt_lessonTwo (env : Env) : ExtendsSt (lessonTwo env) := by
  unfold lessonTwo
  simp only [block_cons, block_nil]
  refine extendsSt_seqS (extendsSt_emit _) ?_
  refine extendsSt_seqS (extendsSt_nav _ _ _) ?_
  refine extendsSt_seqS (extendsSt_attempt _ _) ?_
  refine extendsSt_seqS (extendsSt_ite
    (extendsSt_seqS (extendsSt_attempt _ _)
      (extendsSt_seqS (extendsSt_attempt _ _) extendsSt_skip)) extendsSt_skip) ?_
  exact extendsSt_seqS (extendsSt_attempt _ _)
    (extendsSt_seqS (extendsSt_shot _)
      (extendsSt_seqS (extendsSt_emit _) extendsSt_skip))

theorem logAll_profileSelect (env : Env) {P : String → Prop}
    (h1 : P "On profiles page") (h2 : P "Clicking Add Player")
    (h3 : P "Selecting existing profile")
    (h4 : ∀ e, P ("Profile selection failed: " ++ e)) :
    LogAll P (profileSelect env) := by
  unfold profileSelect
  simp only [block_cons, block_nil]
  refine logAll_ite ?_ (logAll_skip P)
  refine logAll_seqS (logAll_emit h1) (logAll_seqS ?_ (logAll_skip P))
  refine logAll_tryc ?_ fun e =>
    logAll_seqS (logAll_emit (h4 e)) (logAll_seqS (logAll_raiseS P e)
      (logAll_skip P))
  refine logAll_ite ?_ (logAll_ite ?_ (logAll_skip P))
  · exact logAll_seqS (logAll_emit h2)
      (logAll_seqS (logAll_attempt P _ _)
        (logAll_seqS (logAll_attempt P _ _)
          (logAll_seqS (logAll_attempt P _ _)
            (logAll_seqS (logAll_attempt P _ _)
              (logAll_seqS (logAll_attempt P _ _) (logAll_skip P))))))
  · exact logAll_seqS (logAll_emit h3)
      (logAll_seqS (logAll_attempt P _ _)
        (logAll_seqS (logAll_attempt P _ _) (logAll_skip P)))

theorem logAll_lessonOne (env : Env) {P : String → Prop}
    (h1 : P "Navigating to lesson 1...") : LogAll P (lessonOne env) := by
  unfold lessonOne
  simp only [block_cons, block_nil]
  refine logAll_seqS (logAll_emit h1) ?_
  refine logAll_seqS (logAll_nav P _ _ _) ?_
  refine logAll_seqS (logAll_attempt P _ _) ?_
  refine logAll_seqS ?_ (logAll_seqS (logAll_shot P _) (logAll_skip P))
  exact logAll_ite
    (logAll_seqS (logAll_attempt P _ _)
      (logAll_seqS (logAll_attempt P _ _) (logAll_skip P))) (logAll_skip P)

theorem logAll_lessonTwo (env : Env) {P : String → Prop}
    (h1 : P "Navigating to lesson 2...") (h2 : P "Lesson 2 screenshot taken") :
    LogAll P (lessonTwo env) := by
  unfold lessonTwo
  simp only [block_cons, block_nil]
  refine logAll_seqS (logAll_emit h1) ?_
  refine logAll_seqS (logAll_nav P _ _ _) ?_
  refine logAll_seqS (logAll_attempt P _ _) ?_
  refine logAll_seqS (logAll_ite
    (logAll_seqS (logAll_attempt P _ _)
      (logAll_seqS (logAll_attempt P _ _) (logAll_skip P))) (logAll_skip P)) ?_
  exact logAll_seqS (logAll_attempt P _ _)
    (logAll_seqS (logAll_shot P _)
      (logAll_seqS (logAll_emit h2) (logAll_skip P)))

/-- When the page URL does not contain `/profiles`, the whole
profile-selection block of `verify_lesson.py` is a no-op. -/
theorem profileSelect_not_profiles (env : Env)
    (h : substrB "/profiles" env.urlAfterRoot = false) :
    profileSelect env = skip := by
  unfold profileSelect
  rw [h]
  rfl

end VerifyLesson

namespace VerifyLessonPage

theorem extendsSt_profileStep (env : Env) : ExtendsSt (profileStep env) := by
  unfold profileStep
  simp only [block_cons, block_nil]
  refine extendsSt_tryc ?_ fun e => extendsSt_emit _
  refine extendsSt_seqS (extendsSt_attempt _ _) ?_
  refine extendsSt_seqS (extendsSt_emit _) ?_
  refine extendsSt_seqS (extendsSt_emit _) ?_
  refine extendsSt_seqS ?_ extendsSt_skip
  refine extendsSt_ite ?_ ?_
  · exact extendsSt_seqS (extendsSt_emit _)
      (extendsSt_seqS (extendsSt_attempt _ _) extendsSt_skip)
  · refine extendsSt_seqS (extendsSt_emit _) ?_
    refine extendsSt_seqS (extendsSt_ite (extendsSt_attempt _ _) extendsSt_skip) ?_
    exact extendsSt_seqS (extendsSt_attempt _ _)
      (extendsSt_seqS (extendsSt_attempt _ _)
        (extendsSt_seqS (extendsSt_attempt _ _) extendsSt_skip))

theorem extendsSt_storyStep (env : Env) : ExtendsSt (storyStep env) := by
  unfold storyStep
  simp only [block_cons, block_nil]
  refine extendsSt_tryc ?_ fun e => extendsSt_emit _
  exact extendsSt_seqS (extendsSt_attempt _ _)
    (extendsSt_seqS (extendsSt_attempt _ _)
      (extendsSt_seqS (extendsSt_emit _) extendsSt_skip))

theorem extendsSt_boardStep (env : Env) : ExtendsSt (boardStep env) := by
  unfold boardStep
  simp only [block_cons, block_nil]
  refine extendsSt_tryc ?_ fun e =>
    extendsSt_seqS (extendsSt_emit _)
      (extendsSt_seqS (extendsSt_shot _)
        (extendsSt_seqS (extendsSt_raiseS _) extendsSt_skip))
  exact extendsSt_seqS (extendsSt_attempt _ _)
    (extendsSt_seqS (extendsSt_emit _) extendsSt_skip)

theorem logAll_storyStep (env : Env) {P : String → Prop}
    (h1 : P "Clicked story button.")
    (h2 : ∀ e, P ("Story button not found or error: " ++ e)) :
    LogAll P (storyStep env) := by
  unfold storyStep
  simp only [block_cons, block_nil]
  refine logAll_tryc ?_ fun e => logAll_emit (h2 e)
  exact logAll_seqS (logAll_attempt P _ _)
    (logAll_seqS (logAll_attempt P _ _)
      (logAll_seqS (logAll_emit h1) (logAll_skip P)))

theorem logAll_boardStep (env : Env) {P : String → Prop}
    (h1 : P "Found chess board container.")
    (h2 : P "Timed out waiting for chess board.") :
    LogAll P (boardStep env) := by
  unfold boardStep
  simp only [block_cons, block_nil]
  refine logAll_tryc ?_ fun e =>
    logAll_seqS (logAll_emit h2)
      (logAll_seqS (logAll_shot P _)
        (logAll_seqS (logAll_raiseS P e) (logAll_skip P)))
  exact logAll_seqS (logAll_attempt P _ _)
    (logAll_seqS (logAll_emit h1) (logAll_skip P))

/-- When the wait for the Chess-Kids heading fails with exception `e`, the
profile-selection block of `verify_lesson_page.py` only records the failed
attempt and prints the catch line, and falls through. -/
theorem profileStep_err (env : Env) {e : String}
    (he : env.waitChessKidsHeading = some e) (s : St) :
    (profileStep env s).2 = none ∧
    (profileStep env s).1.log = s.log ++ ["Not on profile select or error: " ++ e] ∧
    (profileStep env s).1.shots = s.shots ∧
    (profileStep env s).1.gotos = s.gotos ∧
    (profileStep env s).1.trace = s.trace ++ [1] := by
  unfold profileStep
  simp [block_cons, block_nil, tryc, seqS, attempt, emit, skip, he]

end VerifyLessonPage

namespace VerifyLessonPage

/-- When the chess-board wait fails with exception `e`, the chess-board
block logs the timeout line, writes the error screenshot and re-raises. -/
theorem boardStep_err (env : Env) {e : String}
    (he : env.waitChessBoard = some e) (s : St) :
    (boardStep env s).2 = some e ∧
    (boardStep env s).1.shots = s.shots ++ ["verification/error_screenshot.png"] ∧
    (boardStep env s).1.log = s.log ++ ["Timed out waiting for chess board."] := by
  unfold boardStep
  simp [block_cons, block_nil, tryc, seqS, attempt, emit, shot, raiseS, skip, he]

/-- When the chess-board wait succeeds, the chess-board block logs the
found line, writes nothing, and falls through. -/
theorem boardStep_ok (env : Env) (he : env.waitChessBoard = none) (s : St) :
    (boardStep env s).2 = none ∧
    (boardStep env s).1.shots = s.shots ∧
    (boardStep env s).1.log = s.log ++ ["Found chess board container."] := by
  unfold boardStep
  simp [block_cons, block_nil, tryc, seqS, attempt, emit, shot, raiseS, skip, he]

/-- The part of `run` after the chess-board block: sleep, print, final
screenshot, close.  It always falls through and writes exactly
`verification/lesson_page.png`. -/
theorem pageTail_run (s : St) :
    ((block [attempt 11 none, emit "Taking screenshot...",
      shot "verification/lesson_page.png", skip]) s).2 = none ∧
    ((block [attempt 11 none, emit "Taking screenshot...",
      shot "verification/lesson_page.png", skip]) s).1.shots =
      s.shots ++ ["verification/lesson_page.png"] := by
  simp [block_cons, block_nil, seqS, attempt, emit, shot, skip]

/-- If both navigations succeed, a `verify_lesson_page.py` run always
reaches the chess-board block (every earlier exception is caught), with no
screenshot written yet. -/
theorem runPage_reaches_board (env : Env) (h0 : env.gotoRoot = none)
    (h7 : env.gotoLesson2 = none) :
    ∃ s : St, s.shots = [] ∧
      runPage env = seqS (boardStep env)
        (block [attempt 11 none, emit "Taking screenshot...",
          shot "verification/lesson_page.png", skip]) s := by
  have hmem : ∀ a ∈ [emit "Navigating to root...",
      nav 0 "http://localhost:5173/" none, profileStep env,
      emit "Navigating to Lesson 2...",
      nav 7 "http://localhost:5173/lesson/2" none,
      emit "Waiting for story button...", storyStep env,
      emit "Waiting for chess board..."], Progresses a ∧ NoShots a := by
    intro a ha
    simp at ha
    rcases ha with rfl | rfl | rfl | rfl | rfl | rfl | rfl | rfl
    exacts [⟨progresses_emit _, noShots_emit _⟩,
      ⟨progresses_nav_ok _ _, noShots_nav _ _ _⟩,
      ⟨progresses_profileStep env, noShots_profileStep env⟩,
      ⟨progresses_emit _, noShots_emit _⟩,
      ⟨progresses_nav_ok _ _, noShots_nav _ _ _⟩,
      ⟨progresses_emit _, noShots_emit _⟩,
      ⟨progresses_storyStep env, noShots_storyStep env⟩,
      ⟨progresses_emit _, noShots_emit _⟩]
  have hprog : Progresses (block [emit "Navigating to root...",
      nav 0 "http://localhost:5173/" none, profileStep env,
      emit "Navigating to Lesson 2...",
      nav 7 "http://localhost:5173/lesson/2" none,
      emit "Waiting for story button...", storyStep env,
      emit "Waiting for chess board..."]) :=
    progresses_block fun a ha => (hmem a ha).1
  have hnsh : NoShots (block [emit "Navigating to root...",
      nav 0 "http://localhost:5173/" none, profileStep env,
      emit "Navigating to Lesson 2...",
      nav 7 "http://localhost:5173/lesson/2" none,
      emit "Waiting for story button...", storyStep env,
      emit "Waiting for chess board..."]) :=
    noShots_block fun a ha => (hmem a ha).2
  refine ⟨((block [emit "Navigating to root...",
      nav 0 "http://localhost:5173/" none, profileStep env,
      emit "Navigating to Lesson 2...",
      nav 7 "http://localhost:5173/lesson/2" none,
      emit "Waiting for story button...", storyStep env,
      emit "Waiting for chess board..."]) St.init).1, ?_, ?_⟩
  · rw [hnsh St.init]
    rfl
  · unfold runPage run
    rw [h0, h7]
    calc block [emit "Navigating to root...",
        nav 0 "http://localhost:5173/" none, profileStep env,
        emit "Navigating to Lesson 2...",
        nav 7 "http://localhost:5173/lesson/2" none,
        emit "Waiting for story button...", storyStep env,
        emit "Waiting for chess board...", boardStep env, attempt 11 none,
        emit "Taking screenshot...", shot "verification/lesson_page.png",
        skip] St.init
        = seqS (block [emit "Navigating to root...",
            nav 0 "http://localhost:5173/" none, profileStep env,
            emit "Navigating to Lesson 2...",
            nav 7 "http://localhost:5173/lesson/2" none,
            emit "Waiting for story button...", storyStep env,
            emit "Waiting for chess board..."])
          (block [boardStep env, attempt 11 none, emit "Taking screenshot...",
            shot "verification/lesson_page.png", skip]) St.init := by
          rw [← block_append]
          rfl
      _ = block [boardStep env, attempt 11 none, emit "Taking screenshot...",
            shot "verification/lesson_page.png", skip]
          ((block [emit "Navigating to root...",
            nav 0 "http://localhost:5173/" none, profileStep env,
            emit "Navigating to Lesson 2...",
            nav 7 "http://localhost:5173/lesson/2" none,
            emit "Waiting for story button...", storyStep env,
            emit "Waiting for chess board..."]) St.init).1 :=
          seqS_ok _ (hprog St.init)
      _ = seqS (boardStep env)
          (block [attempt 11 none, emit "Taking screenshot...",
            shot "verification/lesson_page.png", skip])
          ((block [emit "Navigating to root...",
            nav 0 "http://localhost:5173/" none, profileStep env,
            emit "Navigating to Lesson 2...",
            nav 7 "http://localhost:5173/lesson/2" none,
            emit "Waiting for story button...", storyStep env,
            emit "Waiting for chess board..."]) St.init).1 := by
          rw [block_cons]

end VerifyLessonPage

namespace VerifyLessonPage

/-- If both navigations succeed and the chess-board wait fails with `e`,
the run writes exactly the error screenshot and the exception propagates. -/
theorem runPage_board_timeout {env : Env} {e : String}
    (h0 : env.gotoRoot = none) (h7 : env.gotoLesson2 = none)
    (he : env.waitChessBoard = some e) :
    (runPage env).2 = some e ∧
    (runPage env).1.shots = ["verification/error_screenshot.png"] ∧
    "Timed out waiting for chess board." ∈ (runPage env).1.log := by
  obtain ⟨s, hs, hrun⟩ := runPage_reaches_board env h0 h7
  obtain ⟨hb2, hbs, hbl⟩ := boardStep_err env he s
  rw [hrun, seqS_err _ hb2]
  refine ⟨rfl, by rw [hbs, hs]; rfl, ?_⟩
  show _ ∈ (boardStep env s).1.log
  rw [hbl]
  simp

/-- If both navigations succeed and the chess-board wait succeeds, the run
writes exactly the lesson-page screenshot and falls through. -/
theorem runPage_board_ok {env : Env} (h0 : env.gotoRoot = none)
    (h7 : env.gotoLesson2 = none) (he : env.waitChessBoard = none) :
    (runPage env).2 = none ∧
    (runPage env).1.shots = ["verification/lesson_page.png"] := by
  obtain ⟨s, hs, hrun⟩ := runPage_reaches_board env h0 h7
  obtain ⟨hb2, hbs, _⟩ := boardStep_ok env he s
  rw [hrun, seqS_ok _ hb2]
  obtain ⟨ht2, hts⟩ := pageTail_run ((boardStep env s).1)
  exact ⟨ht2, by rw [hts, hbs, hs]; rfl⟩

end VerifyLessonPage

theorem mem_log_extends {a : Script} (ha : ExtendsSt a) {s : St} {m : String}
    (h : m ∈ s.log) : m ∈ (a s).1.log := by
  obtain ⟨d1, d2, d3, d4, hl, _, _, _⟩ := ha s
  rw [hl]
  exact List.mem_append_left _ h

theorem mem_trace_extends {a : Script} (ha : ExtendsSt a) {s : St} {i : Nat}
    (h : i ∈ s.trace) : i ∈ (a s).1.trace := by
  obtain ⟨d1, d2, d3, d4, _, _, _, ht⟩ := ha s
  rw [ht]
  exact List.mem_append_left _ h

theorem mem_gotos_extends {a : Script} (ha : ExtendsSt a) {s : St} {u : String}
    (h : u ∈ s.gotos) : u ∈ (a s).1.gotos := by
  obtain ⟨d1, d2, d3, d4, _, _, hg, _⟩ := ha s
  rw [hg]
  exact List.mem_append_left _ h

theorem mem_log_seqS {a : Script} {b : Script} (hb : ExtendsSt b) {s : St}
    {m : String} (h : m ∈ (a s).1.log) : m ∈ (seqS a b s).1.log := by
  rcases h2 : (a s).2 with _ | e
  · rw [seqS_ok _ h2]
    exact mem_log_extends hb h
  · rw [seqS_err _ h2]
    exact h

theorem mem_trace_seqS {a : Script} {b : Script} (hb : ExtendsSt b) {s : St}
    {i : Nat} (h : i ∈ (a s).1.trace) : i ∈ (seqS a b s).1.trace := by
  rcases h2 : (a s).2 with _ | e
  · rw [seqS_ok _ h2]
    exact mem_trace_extends hb h
  · rw [seqS_err _ h2]
    exact h

theorem mem_gotos_seqS {a : Script} {b : Script} (hb : ExtendsSt b) {s : St}
    {u : String} (h : u ∈ (a s).1.gotos) : u ∈ (seqS a b s).1.gotos := by
  rcases h2 : (a s).2 with _ | e
  · rw [seqS_ok _ h2]
    exact mem_gotos_extends hb h
  · rw [seqS_err _ h2]
    exact h

theorem mem_log_tryc {body : Script} {hd : String → Script}
    (hh : ∀ e, ExtendsSt (hd e)) {s : St} {m : String}
    (h : m ∈ (body s).1.log) : m ∈ (tryc body hd s).1.log := by
  rcases h2 : (body s).2 with _ | e
  · rw [tryc_ok _ h2]
    exact h
  · rw [tryc_err _ h2]
    exact mem_log_extends (hh e) h

theorem mem_trace_tryc {body : Script} {hd : String → Script}
    (hh : ∀ e, ExtendsSt (hd e)) {s : St} {i : Nat}
    (h : i ∈ (body s).1.trace) : i ∈ (tryc body hd s).1.trace := by
  rcases h2 : (body s).2 with _ | e
  · rw [tryc_ok _ h2]
    exact h
  · rw [tryc_err _ h2]
    exact mem_trace_extends (hh e) h

/-- A string shorter than `pf` is never `pf ++ e`. -/
theorem ne_append_of_length_lt {m pf : String} (h : m.length < pf.length) :
    ∀ e, m ≠ pf ++ e := by
  intro e he
  have hl := congrArg String.length he
  rw [String.length_append] at hl
  omega

namespace VerifyLessonPage

/-- When the story-button wait fails with `e`, the story block records the
attempt, logs the catch line, and falls through. -/
theorem storyStep_err (env : Env) {e : String}
    (he : env.waitStoryButton = some e) (s : St) :
    (storyStep env s).2 = none ∧
    (storyStep env s).1.log = s.log ++ ["Story button not found or error: " ++ e] ∧
    (storyStep env s).1.trace = s.trace ++ [8] := by
  unfold storyStep
  simp [block_cons, block_nil, tryc, seqS, attempt, emit, skip, he]

/-- Whenever the chess-board block runs, the wait for
`.chess-board-container` (program point 10) is attempted. -/
theorem boardStep_attempts (env : Env) (s : St) :
    10 ∈ (boardStep env s).1.trace := by
  rcases h : env.waitChessBoard with _ | e <;>
    simp [boardStep, block_cons, block_nil, tryc, seqS, attempt, emit, shot,
      raiseS, skip, h]

/-- When the wait for the Chess-Kids heading succeeds, the profile block
prints the detection line (whatever happens afterwards). -/
theorem profileStep_ok_mem (env : Env) (he : env.waitChessKidsHeading = none)
    (s : St) : "On Profile Select Page" ∈ (profileStep env s).1.log := by
  unfold profileStep
  simp only [block_cons, block_nil]
  refine mem_log_tryc (fun e => extendsSt_emit _) ?_
  rw [he]
  rw [seqS_ok _ (progresses_attempt_ok 1 _)]
  rw [seqS_ok _ (progresses_emit _ _)]
  refine mem_log_extends ?_ (by simp [emit, attempt])
  refine extendsSt_seqS (extendsSt_emit _) ?_
  refine extendsSt_seqS ?_ extendsSt_skip
  refine extendsSt_ite ?_ ?_
  · exact extendsSt_seqS (extendsSt_emit _)
      (extendsSt_seqS (extendsSt_attempt _ _) extendsSt_skip)
  · refine extendsSt_seqS (extendsSt_emit _) ?_
    refine extendsSt_seqS (extendsSt_ite (extendsSt_attempt _ _) extendsSt_skip) ?_
    exact extendsSt_seqS (extendsSt_attempt _ _)
      (extendsSt_seqS (extendsSt_attempt _ _)
        (extendsSt_seqS (extendsSt_attempt _ _) extendsSt_skip))

/-- When the wait for the Chess-Kids heading fails, every line the profile
block adds to the log is its catch line. -/
theorem logAll_profileStep_err (env : Env) {e : String}
    (he : env.waitChessKidsHeading = some e) {P : String → Prop}
    (hP : P ("Not on profile select or error: " ++ e)) :
    LogAll P (profileStep env) := by
  intro s hs m hm
  rw [(profileStep_err env he s).2.1] at hm
  rcases List.mem_append.mp hm with h | h
  · exact hs m h
  · simp at h
    exact h ▸ hP

end VerifyLessonPage

/-- A fully succeeding `verify_lesson.py` run falls through, writes the two
lesson screenshots in order, and navigates to the root and both lesson
pages, whatever the pure queries (URL, visibility, counts) return. -/
theorem allOk_lesson_run (env : VerifyLesson.Env) (h : env.allOk) :
    (VerifyLesson.runLesson env).2 = none ∧
    (VerifyLesson.runLesson env).1.shots =
      ["verification/lesson_1_board.png", "verification/lesson_2_board.png"] ∧
    (VerifyLesson.runLesson env).1.gotos =
      ["http://localhost:5173/", "http://localhost:5173/lesson/1",
       "http://localhost:5173/lesson/2"] := by
  obtain ⟨g0, url, av, ca, fp, cl, wa, pc, cf, ws, g1, w1, v1, c1, g2, w2, v2,
    c2, wsvg⟩ := env
  obtain ⟨rfl, rfl, rfl, rfl, rfl, rfl, rfl, rfl, rfl, rfl, rfl, rfl, rfl, rfl⟩ := h
  by_cases hsub : substrB "/profiles" url = true <;>
    cases av <;>
    by_cases hpc : pc > 0 <;>
    cases v1 <;>
    cases v2 <;>
      simp [VerifyLesson.runLesson, VerifyLesson.lessonMain,
        VerifyLesson.verify_lesson, VerifyLesson.profileSelect,
        VerifyLesson.lessonOne, VerifyLesson.lessonTwo, block_cons, block_nil,
        seqS, tryc, emit, attempt, nav, shot, skip, raiseS, St.init, hsub, hpc]

/-- A fully succeeding `verify_lesson_page.py` run falls through, writes
exactly the lesson-page screenshot, and navigates to the root and lesson 2,
whatever the pure queries return. -/
theorem allOk_page_run (env : VerifyLessonPage.Env) (h : env.allOk) :
    (VerifyLessonPage.runPage env).2 = none ∧
    (VerifyLessonPage.runPage env).1.shots = ["verification/lesson_page.png"] ∧
    (VerifyLessonPage.runPage env).1.gotos =
      ["http://localhost:5173/", "http://localhost:5173/lesson/2"] := by
  obtain ⟨url, g0, wk, pc, cf, ac, ca, wp, fp, cl, g2, wsb, csb, wcb⟩ := env
  obtain ⟨rfl, rfl, rfl, rfl, rfl, rfl, rfl, rfl, rfl, rfl, rfl⟩ := h
  by_cases hpc : pc > 0 <;>
    by_cases hac : ac > 0 <;>
      simp [VerifyLessonPage.runPage, VerifyLessonPage.run,
        VerifyLessonPage.profileStep, VerifyLessonPage.storyStep,
        VerifyLessonPage.boardStep, block_cons, block_nil, seqS, tryc, emit,
        attempt, nav, shot, skip, raiseS, St.init, hpc, hac]

/-- Claim C1 counterexample: in this `verify_lesson.py` run the required
element `.lesson-page` does not appear within its 10000ms timeout window
(the wait at program point 10 is attempted and raises), yet the script
neither exits non-zero nor raises an uncaught exception: the `__main__`
block catches the exception, prints `Error: ...`, and the process exits 0. -/
theorem lesson_timeout_exits_zero :
    envLessonTimeout.waitLessonPage1 = some "Timeout 10000ms exceeded" ∧
    10 ∈ (VerifyLesson.runLesson envLessonTimeout).1.trace ∧
    (VerifyLesson.runLesson envLessonTimeout).2 = none ∧
    exitCode (VerifyLesson.runLesson envLessonTimeout) = 0 ∧
    "Error: Timeout 10000ms exceeded" ∈
      (VerifyLesson.runLesson envLessonTimeout).1.log := by
  decide

/-- Claim C1 amended: only the chess-board wait of `verify_lesson_page.py`
makes a timed-out element fatal: if both navigations succeed and
`.chess-board-container` never appears, the exception propagates and the
script exits non-zero; if the chess-board wait succeeds the script exits
zero whatever happened to the other awaited elements (their failures are
caught); and `verify_lesson.py` always exits zero because its `__main__`
catches every exception. -/
theorem timeout_exit_behaviour (envP : VerifyLessonPage.Env)
    (envL : VerifyLesson.Env) (e : String) :
    (envP.gotoRoot = none → envP.gotoLesson2 = none →
      envP.waitChessBoard = some e →
      (VerifyLessonPage.runPage envP).2 = some e ∧
      exitCode (VerifyLessonPage.runPage envP) = 1) ∧
    (envP.gotoRoot = none → envP.gotoLesson2 = none →
      envP.waitChessBoard = none →
      exitCode (VerifyLessonPage.runPage envP) = 0) ∧
    ((VerifyLesson.runLesson envL).2 = none ∧
      exitCode (VerifyLesson.runLesson envL) = 0) := by
  refine ⟨?_, ?_, ?_⟩
  · intro h0 h7 he
    have h := (VerifyLessonPage.runPage_board_timeout h0 h7 he).1
    exact ⟨h, by simp [exitCode, h]⟩
  · intro h0 h7 he
    have h := (VerifyLessonPage.runPage_board_ok h0 h7 he).1
    simp [exitCode, h]
  · have h : (VerifyLesson.runLesson envL).2 = none :=
      VerifyLesson.progresses_lessonMain envL St.init
    exact ⟨h, by simp [exitCode, h]⟩

/-- Claim C1 amended, witnessed at concrete runs: a chess-board timeout is
fatal, a story-button timeout alone is not, and a lesson-page timeout in
`verify_lesson.py` still exits zero. -/
theorem timeout_exit_behaviour_witness :
    ((VerifyLessonPage.runPage envBoardTimeout).2 =
        some "Timeout 5000ms exceeded" ∧
      exitCode (VerifyLessonPage.runPage envBoardTimeout) = 1) ∧
    exitCode (VerifyLessonPage.runPage envStoryTimeout) = 0 ∧
    ((VerifyLesson.runLesson envLessonTimeout).2 = none ∧
      exitCode (VerifyLesson.runLesson envLessonTimeout) = 0) :=
  ⟨(timeout_exit_behaviour envBoardTimeout envLessonTimeout
      "Timeout 5000ms exceeded").1 rfl rfl rfl,
   (timeout_exit_behaviour envStoryTimeout envLessonTimeout "x").2.1 rfl rfl rfl,
   (timeout_exit_behaviour envBoardTimeout envLessonTimeout "x").2.2⟩

/-- Claim C2: when the application is reachable and every awaited element
appears within its timeout (every fallible browser operation succeeds),
both scripts exit with status zero and the PNG screenshots are written at
the fixed relative paths: `verification/lesson_1_board.png` and
`verification/lesson_2_board.png` for `verify_lesson.py`, and
`verification/lesson_page.png` for `verify_lesson_page.py`. -/
theorem allOk_exit_zero_and_screenshots (envL : VerifyLesson.Env)
    (envP : VerifyLessonPage.Env) (hL : envL.allOk) (hP : envP.allOk) :
    exitCode (VerifyLesson.runLesson envL) = 0 ∧
    (VerifyLesson.runLesson envL).1.shots =
      ["verification/lesson_1_board.png", "verification/lesson_2_board.png"] ∧
    exitCode (VerifyLessonPage.runPage envP) = 0 ∧
    (VerifyLessonPage.runPage envP).1.shots =
      ["verification/lesson_page.png"] := by
  obtain ⟨h1, h2, _⟩ := allOk_lesson_run envL hL
  obtain ⟨h3, h4, _⟩ := allOk_page_run envP hP
  exact ⟨by simp [exitCode, h1], h2, by simp [exitCode, h3], h4⟩

/-- Claim C2 witnessed at concrete all-success runs. -/
theorem allOk_exit_zero_and_screenshots_witness :
    exitCode (VerifyLesson.runLesson envLessonAllOk) = 0 ∧
    (VerifyLesson.runLesson envLessonAllOk).1.shots =
      ["verification/lesson_1_board.png", "verification/lesson_2_board.png"] ∧
    exitCode (VerifyLessonPage.runPage envPageAllOk) = 0 ∧
    (VerifyLessonPage.runPage envPageAllOk).1.shots =
      ["verification/lesson_page.png"] :=
  allOk_exit_zero_and_screenshots envLessonAllOk envPageAllOk
    (by refine ⟨rfl, rfl, rfl, rfl, rfl, rfl, rfl, rfl, rfl, rfl, rfl, rfl,
      rfl, rfl⟩)
    (by refine ⟨rfl, rfl, rfl, rfl, rfl, rfl, rfl, rfl, rfl, rfl, rfl⟩)

/-- Claim C4 counterexample: a fully successful `verify_lesson_page.py`
run navigates to the root and to a single lesson page (`/lesson/2` only)
and captures a single screenshot, so it is not the case that each script
drives through two lesson pages with a screenshot of each. -/
theorem page_script_visits_one_lesson :
    (VerifyLessonPage.runPage envPageAllOk).2 = none ∧
    (VerifyLessonPage.runPage envPageAllOk).1.gotos =
      ["http://localhost:5173/", "http://localhost:5173/lesson/2"] ∧
    (VerifyLessonPage.runPage envPageAllOk).1.shots =
      ["verification/lesson_page.png"] := by
  decide

/-- Claim C4 amended: in a fully successful run, `verify_lesson.py`
navigates through the profile-selection flow at the root and then both
lesson pages, screenshotting each, while `verify_lesson_page.py` visits
only lesson 2 and captures one screenshot of it. -/
theorem lesson_pages_visited (envL : VerifyLesson.Env)
    (envP : VerifyLessonPage.Env) (hL : envL.allOk) (hP : envP.allOk) :
    (VerifyLesson.runLesson envL).1.gotos =
      ["http://localhost:5173/", "http://localhost:5173/lesson/1",
       "http://localhost:5173/lesson/2"] ∧
    (VerifyLesson.runLesson envL).1.shots =
      ["verification/lesson_1_board.png", "verification/lesson_2_board.png"] ∧
    (VerifyLessonPage.runPage envP).1.gotos =
      ["http://localhost:5173/", "http://localhost:5173/lesson/2"] ∧
    (VerifyLessonPage.runPage envP).1.shots =
      ["verification/lesson_page.png"] := by
  obtain ⟨_, h2, h3⟩ := allOk_lesson_run envL hL
  obtain ⟨_, h5, h6⟩ := allOk_page_run envP hP
  exact ⟨h3, h2, h6, h5⟩

/-- Claim C4 amended, witnessed at concrete all-success runs. -/
theorem lesson_pages_visited_witness :
    (VerifyLesson.runLesson envLessonAllOk).1.gotos =
      ["http://localhost:5173/", "http://localhost:5173/lesson/1",
       "http://localhost:5173/lesson/2"] ∧
    (VerifyLesson.runLesson envLessonAllOk).1.shots =
      ["verification/lesson_1_board.png", "verification/lesson_2_board.png"] ∧
    (VerifyLessonPage.runPage envPageAllOk).1.gotos =
      ["http://localhost:5173/", "http://localhost:5173/lesson/2"] ∧
    (VerifyLessonPage.runPage envPageAllOk).1.shots =
      ["verification/lesson_page.png"] :=
  lesson_pages_visited envLessonAllOk envPageAllOk
    (by refine ⟨rfl, rfl, rfl, rfl, rfl, rfl, rfl, rfl, rfl, rfl, rfl, rfl,
      rfl, rfl⟩)
    (by refine ⟨rfl, rfl, rfl, rfl, rfl, rfl, rfl, rfl, rfl, rfl, rfl⟩)

/-- Claim C6: the handlers that `verify_lesson_page.py` registers with
`page.on("console", ...)` and `page.on("pageerror", ...)` receive every
emitted event in emission order (Playwright invokes a registered handler
once per event, in order, which `handlerOutput` models) and print each one
as a status line with the `BROWSER CONSOLE:` or `BROWSER ERROR:` prefix:
the printed lines correspond one-to-one and in order to the events, and
each event is formatted with the prefix matching its kind. -/
theorem console_handlers_print_in_order (events : List BrowserEvent) :
    (handlerOutput events).length = events.length ∧
    (∀ i : Nat, (handlerOutput events)[i]? = (events[i]?).map consoleHandler) ∧
    (∀ t, consoleHandler (BrowserEvent.console t) = "BROWSER CONSOLE: " ++ t) ∧
    (∀ t, consoleHandler (BrowserEvent.pageerror t) = "BROWSER ERROR: " ++ t) := by
  refine ⟨by simp [handlerOutput], ?_, fun t => rfl, fun t => rfl⟩
  intro i
  simp [handlerOutput]

/-- Claim C6 witnessed on a concrete event sequence. -/
theorem console_handlers_print_in_order_witness :
    (handlerOutput [BrowserEvent.console "hello",
      BrowserEvent.pageerror "TypeError"]).length = 2 ∧
    (handlerOutput [BrowserEvent.console "hello",
      BrowserEvent.pageerror "TypeError"])[0]? = some "BROWSER CONSOLE: hello" ∧
    (handlerOutput [BrowserEvent.console "hello",
      BrowserEvent.pageerror "TypeError"])[1]? = some "BROWSER ERROR: TypeError" := by
  have h := console_handlers_print_in_order
    [BrowserEvent.console "hello", BrowserEvent.pageerror "TypeError"]
  exact ⟨h.1, by rw [h.2.1 0]; rfl, by rw [h.2.1 1]; rfl⟩

/-- Claim C7: neither script ever attempts a navigation, click, fill or
wait step more than once in a single run.  Identifying each such step with
its program point in the source (both scripts are loop-free straight-line
code), the chronological trace of attempted steps contains no duplicate in
any environment; in particular a failed step is never retried. -/
theorem no_step_attempted_twice (envL : VerifyLesson.Env)
    (envP : VerifyLessonPage.Env) :
    (VerifyLesson.runLesson envL).1.trace.Nodup ∧
    (VerifyLessonPage.runPage envP).1.trace.Nodup := by
  constructor
  · obtain ⟨t, ht, hn, _⟩ := VerifyLesson.stepsIn_lessonMain envL St.init
    have he : (VerifyLesson.runLesson envL).1.trace = t := by
      show (VerifyLesson.lessonMain envL St.init).1.trace = t
      rw [ht]
      rfl
    rw [he]
    exact hn
  · obtain ⟨t, ht, hn, _⟩ := VerifyLessonPage.stepsIn_run envP St.init
    have he : (VerifyLessonPage.runPage envP).1.trace = t := by
      show (VerifyLessonPage.run envP St.init).1.trace = t
      rw [ht]
      rfl
    rw [he]
    exact hn

/-- Claim C7 witnessed at concrete runs. -/
theorem no_step_attempted_twice_witness :
    (VerifyLesson.runLesson envLessonTimeout).1.trace.Nodup ∧
    (VerifyLessonPage.runPage envStoryTimeout).1.trace.Nodup :=
  no_step_attempted_twice envLessonTimeout envStoryTimeout

/-- Claim C9: in every `verify_lesson_page.py` run that reaches the
chess-board wait (both navigations succeed; every earlier exception is
caught), exactly one of the two screenshots is written:
`verification/lesson_page.png` if and only if the wait for
`.chess-board-container` succeeds (and then the run falls through), and
`verification/error_screenshot.png` if and only if that wait times out
(and then the exception is re-raised, so the lesson-page screenshot is
never written). -/
theorem board_wait_screenshot_dichotomy (env : VerifyLessonPage.Env)
    (h0 : env.gotoRoot = none) (h7 : env.gotoLesson2 = none) :
    (env.waitChessBoard = none →
      (VerifyLessonPage.runPage env).1.shots =
        ["verification/lesson_page.png"] ∧
      (VerifyLessonPage.runPage env).2 = none) ∧
    (∀ e, env.waitChessBoard = some e →
      (VerifyLessonPage.runPage env).1.shots =
        ["verification/error_screenshot.png"] ∧
      (VerifyLessonPage.runPage env).2 = some e) := by
  constructor
  · intro he
    obtain ⟨h2, h1⟩ := VerifyLessonPage.runPage_board_ok h0 h7 he
    exact ⟨h1, h2⟩
  · intro e he
    obtain ⟨h2, h1, _⟩ := VerifyLessonPage.runPage_board_timeout h0 h7 he
    exact ⟨h1, h2⟩

/-- Claim C9 witnessed at a concrete run whose chess-board wait times
out. -/
theorem board_wait_screenshot_dichotomy_witness :
    (VerifyLessonPage.runPage envBoardTimeout).1.shots =
      ["verification/error_screenshot.png"] ∧
    (VerifyLessonPage.runPage envBoardTimeout).2 =
      some "Timeout 5000ms exceeded" :=
  (board_wait_screenshot_dichotomy envBoardTimeout rfl rfl).2
    "Timeout 5000ms exceeded" rfl

/-- If the initial navigation succeeds, the lesson-2 navigation of
`verify_lesson_page.py` is always performed: the lesson-2 status line is
printed, the `goto` at program point 7 is attempted, and its URL is
recorded, whatever became of the profile-selection block. -/
theorem VerifyLessonPage.runPage_reaches_lesson2 (env : VerifyLessonPage.Env)
    (h0 : env.gotoRoot = none) :
    "Navigating to Lesson 2..." ∈ (VerifyLessonPage.runPage env).1.log ∧
    7 ∈ (VerifyLessonPage.runPage env).1.trace ∧
    "http://localhost:5173/lesson/2" ∈ (VerifyLessonPage.runPage env).1.gotos := by
  have hprog3 : Progresses (block [emit "Navigating to root...",
      nav 0 "http://localhost:5173/" none, VerifyLessonPage.profileStep env]) := by
    refine progresses_block ?_
    intro a ha
    simp at ha
    rcases ha with rfl | rfl | rfl
    exacts [progresses_emit _, progresses_nav_ok _ _,
      VerifyLessonPage.progresses_profileStep env]
  have hb : ExtendsSt (block [emit "Waiting for story button...",
      VerifyLessonPage.storyStep env, emit "Waiting for chess board...",
      VerifyLessonPage.boardStep env, attempt 11 none,
      emit "Taking screenshot...", shot "verification/lesson_page.png",
      skip]) := by
    refine extendsSt_block ?_
    intro a ha
    simp at ha
    rcases ha with rfl | rfl | rfl | rfl | rfl | rfl | rfl | rfl
    exacts [extendsSt_emit _, VerifyLessonPage.extendsSt_storyStep env,
      extendsSt_emit _, VerifyLessonPage.extendsSt_boardStep env,
      extendsSt_attempt _ _, extendsSt_emit _, extendsSt_shot _,
      extendsSt_skip]
  have hsplit : VerifyLessonPage.runPage env =
      (block [emit "Navigating to Lesson 2...",
        nav 7 "http://localhost:5173/lesson/2" env.gotoLesson2,
        emit "Waiting for story button...", VerifyLessonPage.storyStep env,
        emit "Waiting for chess board...", VerifyLessonPage.boardStep env,
        attempt 11 none, emit "Taking screenshot...",
        shot "verification/lesson_page.png", skip])
      ((block [emit "Navigating to root...",
        nav 0 "http://localhost:5173/" none,
        VerifyLessonPage.profileStep env]) St.init).1 := by
    unfold VerifyLessonPage.runPage VerifyLessonPage.run
    rw [h0]
    calc block [emit "Navigating to root...",
        nav 0 "http://localhost:5173/" none, VerifyLessonPage.profileStep env,
        emit "Navigating to Lesson 2...",
        nav 7 "http://localhost:5173/lesson/2" env.gotoLesson2,
        emit "Waiting for story button...", VerifyLessonPage.storyStep env,
        emit "Waiting for chess board...", VerifyLessonPage.boardStep env,
        attempt 11 none, emit "Taking screenshot...",
        shot "verification/lesson_page.png", skip] St.init
        = seqS (block [emit "Navigating to root...",
            nav 0 "http://localhost:5173/" none,
            VerifyLessonPage.profileStep env])
          (block [emit "Navigating to Lesson 2...",
            nav 7 "http://localhost:5173/lesson/2" env.gotoLesson2,
            emit "Waiting for story button...",
            VerifyLessonPage.storyStep env,
            emit "Waiting for chess board...", VerifyLessonPage.boardStep env,
            attempt 11 none, emit "Taking screenshot...",
            shot "verification/lesson_page.png", skip]) St.init := by
          rw [← block_append]
          rfl
      _ = _ := seqS_ok _ (hprog3 St.init)
  rw [hsplit, block_cons, seqS_ok _ (progresses_emit _ _), block_cons]
  refine ⟨mem_log_seqS hb ?_, mem_trace_seqS hb ?_, mem_gotos_seqS hb ?_⟩
  · simp [nav, emit]
  · simp [nav]
  · simp [nav]

/-- Claim C10: in every `verify_lesson_page.py` run that gets past the
initial navigation, the navigation to `http://localhost:5173/lesson/2` is
performed regardless of whether the profile-selection step succeeded, was
skipped, or raised, because every exception from the profile-selection
block is caught and only logged: the lesson-2 status line is printed, the
`goto` at program point 7 is attempted, and its URL is recorded. -/
theorem lesson2_navigation_always_reached (env : VerifyLessonPage.Env)
    (h0 : env.gotoRoot = none) :
    "Navigating to Lesson 2..." ∈ (VerifyLessonPage.runPage env).1.log ∧
    7 ∈ (VerifyLessonPage.runPage env).1.trace ∧
    "http://localhost:5173/lesson/2" ∈
      (VerifyLessonPage.runPage env).1.gotos :=
  VerifyLessonPage.runPage_reaches_lesson2 env h0

/-- Claim C10 witnessed at a run whose profile-selection step raised (the
heading wait timed out). -/
theorem lesson2_navigation_always_reached_witness :
    "Navigating to Lesson 2..." ∈
      (VerifyLessonPage.runPage envHeadingTimeout).1.log ∧
    7 ∈ (VerifyLessonPage.runPage envHeadingTimeout).1.trace ∧
    "http://localhost:5173/lesson/2" ∈
      (VerifyLessonPage.runPage envHeadingTimeout).1.gotos :=
  lesson2_navigation_always_reached envHeadingTimeout rfl

/-- Claim C3 counterexample: exceptions are also caught outside the
profile-selection and story-button steps: in this run the chess-board wait
raises and its surrounding `except` block demonstrably runs (it prints the
timeout line and writes `verification/error_screenshot.png`) before
re-raising, so the catch sites are not limited to the two steps the claim
names. -/
theorem board_catch_refutes_only_two_sites :
    "Timed out waiting for chess board." ∈
      (VerifyLessonPage.runPage envBoardTimeout).1.log ∧
    "verification/error_screenshot.png" ∈
      (VerifyLessonPage.runPage envBoardTimeout).1.shots ∧
    (VerifyLessonPage.runPage envBoardTimeout).2 =
      some "Timeout 5000ms exceeded" := by
  decide

/-- Claim C3 amended: exceptions are caught at four sites.  In
`verify_lesson.py`, around the profile-selection step (logged with
`Profile selection failed:` and re-raised out of `verify_lesson`, after
which the `__main__` block catches it again, prints `Error: ...` and
swallows it), and in `verify_lesson_page.py` around the profile-selection
block (logged and execution continues to the lesson-2 navigation), around
the story-button click (logged and execution continues to the chess-board
wait), and around the chess-board wait (logged, the error screenshot is
written, and the exception is re-raised). -/
theorem exception_catch_sites (envL : VerifyLesson.Env)
    (envP : VerifyLessonPage.Env) (e : String) :
    (envL.gotoRoot = none → substrB "/profiles" envL.urlAfterRoot = true →
      envL.addProfileVisible = true → envL.clickAddProfile = some e →
      (VerifyLesson.runVerifyLesson envL).2 = some e ∧
      ("Profile selection failed: " ++ e) ∈
        (VerifyLesson.runVerifyLesson envL).1.log ∧
      (VerifyLesson.runLesson envL).2 = none ∧
      ("Error: " ++ e) ∈ (VerifyLesson.runLesson envL).1.log) ∧
    (envP.gotoRoot = none → envP.waitChessKidsHeading = some e →
      ("Not on profile select or error: " ++ e) ∈
        (VerifyLessonPage.runPage envP).1.log ∧
      7 ∈ (VerifyLessonPage.runPage envP).1.trace) ∧
    (envP.gotoRoot = none → envP.gotoLesson2 = none →
      envP.waitStoryButton = some e →
      ("Story button not found or error: " ++ e) ∈
        (VerifyLessonPage.runPage envP).1.log ∧
      10 ∈ (VerifyLessonPage.runPage envP).1.trace) ∧
    (envP.gotoRoot = none → envP.gotoLesson2 = none →
      envP.waitChessBoard = some e →
      "Timed out waiting for chess board." ∈
        (VerifyLessonPage.runPage envP).1.log ∧
      "verification/error_screenshot.png" ∈
        (VerifyLessonPage.runPage envP).1.shots ∧
      (VerifyLessonPage.runPage envP).2 = some e) := by
  refine ⟨?_, ?_, ?_, ?_⟩
  · intro h0 hsub hav hca
    obtain ⟨g0, url, av, ca, fp, cl, wa, pc, cf, ws, g1, w1, v1, c1, g2, w2,
      v2, c2, wsvg⟩ := envL
    subst h0
    subst hav
    subst hca
    refine ⟨?_, ?_, ?_, ?_⟩ <;>
      simp [VerifyLesson.runVerifyLesson, VerifyLesson.runLesson,
        VerifyLesson.lessonMain, VerifyLesson.verify_lesson,
        VerifyLesson.profileSelect, block_cons, block_nil, seqS, tryc, emit,
        attempt, nav, shot, skip, raiseS, St.init, hsub]
  · intro h0 he
    have hrest : ExtendsSt (block [emit "Navigating to Lesson 2...",
        nav 7 "http://localhost:5173/lesson/2" envP.gotoLesson2,
        emit "Waiting for story button...", VerifyLessonPage.storyStep envP,
        emit "Waiting for chess board...", VerifyLessonPage.boardStep envP,
        attempt 11 none, emit "Taking screenshot...",
        shot "verification/lesson_page.png", skip]) := by
      refine extendsSt_block ?_
      intro a ha
      simp at ha
      rcases ha with rfl | rfl | rfl | rfl | rfl | rfl | rfl | rfl | rfl | rfl
      all_goals first
        | exact extendsSt_emit _
        | exact extendsSt_nav _ _ _
        | exact extendsSt_attempt _ _
        | exact extendsSt_shot _
        | exact extendsSt_skip
        | exact VerifyLessonPage.extendsSt_storyStep envP
        | exact VerifyLessonPage.extendsSt_boardStep envP
    have hsplit : VerifyLessonPage.runPage envP =
        seqS (VerifyLessonPage.profileStep envP)
          (block [emit "Navigating to Lesson 2...",
            nav 7 "http://localhost:5173/lesson/2" envP.gotoLesson2,
            emit "Waiting for story button...",
            VerifyLessonPage.storyStep envP,
            emit "Waiting for chess board...",
            VerifyLessonPage.boardStep envP, attempt 11 none,
            emit "Taking screenshot...", shot "verification/lesson_page.png",
            skip])
          ⟨["Navigating to root..."], [], ["http://localhost:5173/"], [0]⟩ := by
      unfold VerifyLessonPage.runPage VerifyLessonPage.run
      rw [h0, block_cons, seqS_ok _ (progresses_emit _ _), block_cons,
        seqS_ok _ (progresses_nav_ok _ _ _), block_cons]
      rfl
    constructor
    · rw [hsplit]
      refine mem_log_seqS hrest ?_
      rw [(VerifyLessonPage.profileStep_err envP he _).2.1]
      simp
    · exact (VerifyLessonPage.runPage_reaches_lesson2 envP h0).2.1
  · intro h0 h7 hs
    have hpre6 : Progresses (block [emit "Navigating to root...",
        nav 0 "http://localhost:5173/" none,
        VerifyLessonPage.profileStep envP, emit "Navigating to Lesson 2...",
        nav 7 "http://localhost:5173/lesson/2" none,
        emit "Waiting for story button..."]) := by
      refine progresses_block ?_
      intro a ha
      simp at ha
      rcases ha with rfl | rfl | rfl | rfl | rfl | rfl
      all_goals first
        | exact progresses_emit _
        | exact progresses_nav_ok _ _
        | exact VerifyLessonPage.progresses_profileStep envP
    have hrest2 : ExtendsSt (block [emit "Waiting for chess board...",
        VerifyLessonPage.boardStep envP, attempt 11 none,
        emit "Taking screenshot...", shot "verification/lesson_page.png",
        skip]) := by
      refine extendsSt_block ?_
      intro a ha
      simp at ha
      rcases ha with rfl | rfl | rfl | rfl | rfl | rfl
      all_goals first
        | exact extendsSt_emit _
        | exact extendsSt_attempt _ _
        | exact extendsSt_shot _
        | exact extendsSt_skip
        | exact VerifyLessonPage.extendsSt_boardStep envP
    have hB3 : ExtendsSt (block [attempt 11 none, emit "Taking screenshot...",
        shot "verification/lesson_page.png", skip]) := by
      refine extendsSt_block ?_
      intro a ha
      simp at ha
      rcases ha with rfl | rfl | rfl | rfl
      all_goals first
        | exact extendsSt_emit _
        | exact extendsSt_attempt _ _
        | exact extendsSt_shot _
        | exact extendsSt_skip
    have hsplit : VerifyLessonPage.runPage envP =
        block [VerifyLessonPage.storyStep envP,
          emit "Waiting for chess board...", VerifyLessonPage.boardStep envP,
          attempt 11 none, emit "Taking screenshot...",
          shot "verification/lesson_page.png", skip]
        ((block [emit "Navigating to root...",
          nav 0 "http://localhost:5173/" none,
          VerifyLessonPage.profileStep envP,
          emit "Navigating to Lesson 2...",
          nav 7 "http://localhost:5173/lesson/2" none,
          emit "Waiting for story button..."]) St.init).1 := by
      unfold VerifyLessonPage.runPage VerifyLessonPage.run
      rw [h0, h7]
      calc block [emit "Navigating to root...",
          nav 0 "http://localhost:5173/" none,
          VerifyLessonPage.profileStep envP,
          emit "Navigating to Lesson 2...",
          nav 7 "http://localhost:5173/lesson/2" none,
          emit "Waiting for story button...",
          VerifyLessonPage.storyStep envP,
          emit "Waiting for chess board...", VerifyLessonPage.boardStep envP,
          attempt 11 none, emit "Taking screenshot...",
          shot "verification/lesson_page.png", skip] St.init
          = seqS (block [emit "Navigating to root...",
              nav 0 "http://localhost:5173/" none,
              VerifyLessonPage.profileStep envP,
              emit "Navigating to Lesson 2...",
              nav 7 "http://localhost:5173/lesson/2" none,
              emit "Waiting for story button..."])
            (block [VerifyLessonPage.storyStep envP,
              emit "Waiting for chess board...",
              VerifyLessonPage.boardStep envP, attempt 11 none,
              emit "Taking screenshot...",
              shot "verification/lesson_page.png", skip]) St.init := by
            rw [← block_append]
            rfl
        _ = _ := seqS_ok _ (hpre6 St.init)
    constructor
    · rw [hsplit, block_cons]
      refine mem_log_seqS hrest2 ?_
      rw [(VerifyLessonPage.storyStep_err envP hs _).2.1]
      simp
    · rw [hsplit, block_cons,
        seqS_ok _ (VerifyLessonPage.progresses_storyStep envP _), block_cons,
        seqS_ok _ (progresses_emit _ _), block_cons]
      exact mem_trace_seqS hB3 (VerifyLessonPage.boardStep_attempts envP _)
  · intro h0 h7 he
    obtain ⟨h1, h2, h3⟩ := VerifyLessonPage.runPage_board_timeout h0 h7 he
    exact ⟨h3, by rw [h2]; simp, h1⟩

/-- Claim C3 amended, witnessed at four concrete runs, one per catch
site. -/
theorem exception_catch_sites_witness :
    ((VerifyLesson.runVerifyLesson envProfileClickFail).2 = some "Click failed" ∧
      ("Profile selection failed: " ++ "Click failed") ∈
        (VerifyLesson.runVerifyLesson envProfileClickFail).1.log ∧
      (VerifyLesson.runLesson envProfileClickFail).2 = none ∧
      ("Error: " ++ "Click failed") ∈
        (VerifyLesson.runLesson envProfileClickFail).1.log) ∧
    (("Not on profile select or error: " ++ "Timeout 3000ms exceeded") ∈
        (VerifyLessonPage.runPage envHeadingTimeout).1.log ∧
      7 ∈ (VerifyLessonPage.runPage envHeadingTimeout).1.trace) ∧
    (("Story button not found or error: " ++ "Timeout 5000ms exceeded") ∈
        (VerifyLessonPage.runPage envStoryTimeout).1.log ∧
      10 ∈ (VerifyLessonPage.runPage envStoryTimeout).1.trace) ∧
    ("Timed out waiting for chess board." ∈
        (VerifyLessonPage.runPage envBoardTimeout).1.log ∧
      "verification/error_screenshot.png" ∈
        (VerifyLessonPage.runPage envBoardTimeout).1.shots ∧
      (VerifyLessonPage.runPage envBoardTimeout).2 =
        some "Timeout 5000ms exceeded") :=
  ⟨(exception_catch_sites envProfileClickFail envHeadingTimeout
      "Click failed").1 rfl (by decide) rfl rfl,
   (exception_catch_sites envProfileClickFail envHeadingTimeout
      "Timeout 3000ms exceeded").2.1 rfl rfl,
   (exception_catch_sites envProfileClickFail envStoryTimeout
      "Timeout 5000ms exceeded").2.2.1 rfl rfl rfl,
   (exception_catch_sites envProfileClickFail envBoardTimeout
      "Timeout 5000ms exceeded").2.2.2 rfl rfl rfl⟩

namespace VerifyLessonPage

theorem extendsSt_afterProfile (env : Env) :
    ExtendsSt (block [emit "Navigating to Lesson 2...",
      nav 7 "http://localhost:5173/lesson/2" env.gotoLesson2,
      emit "Waiting for story button...", storyStep env,
      emit "Waiting for chess board...", boardStep env, attempt 11 none,
      emit "Taking screenshot...", shot "verification/lesson_page.png",
      skip]) := by
  refine extendsSt_block ?_
  intro a ha
  simp at ha
  rcases ha with rfl | rfl | rfl | rfl | rfl | rfl | rfl | rfl | rfl | rfl
  all_goals first
    | exact extendsSt_emit _
    | exact extendsSt_nav _ _ _
    | exact extendsSt_attempt _ _
    | exact extendsSt_shot _
    | exact extendsSt_skip
    | exact extendsSt_storyStep env
    | exact extendsSt_boardStep env

theorem runPage_profile_split (env : Env) (h0 : env.gotoRoot = none) :
    runPage env = seqS (profileStep env)
      (block [emit "Navigating to Lesson 2...",
        nav 7 "http://localhost:5173/lesson/2" env.gotoLesson2,
        emit "Waiting for story button...", storyStep env,
        emit "Waiting for chess board...", boardStep env, attempt 11 none,
        emit "Taking screenshot...", shot "verification/lesson_page.png",
        skip])
      ⟨["Navigating to root..."], [], ["http://localhost:5173/"], [0]⟩ := by
  unfold runPage run
  rw [h0, block_cons, seqS_ok _ (progresses_emit _ _), block_cons,
    seqS_ok _ (progresses_nav_ok _ _ _), block_cons]
  rfl

theorem mem_log_runPage (env : Env) (h0 : env.gotoRoot = none) {m : String}
    (h : m ∈ (profileStep env
      ⟨["Navigating to root..."], [], ["http://localhost:5173/"], [0]⟩).1.log) :
    m ∈ (runPage env).1.log := by
  rw [runPage_profile_split env h0]
  exact mem_log_seqS (extendsSt_afterProfile env) h

theorem mem_trace_runPage (env : Env) (h0 : env.gotoRoot = none) {i : Nat}
    (h : i ∈ (profileStep env
      ⟨["Navigating to root..."], [], ["http://localhost:5173/"], [0]⟩).1.trace) :
    i ∈ (runPage env).1.trace := by
  rw [runPage_profile_split env h0]
  exact mem_trace_seqS (extendsSt_afterProfile env) h

/-- With the heading found and at least one existing profile, the profile
block always attempts the click on the first `.profile-content-btn`. -/
theorem profileStep_clicks_first (env : Env)
    (hw : env.waitChessKidsHeading = none) (hpc : env.profileBtnCount > 0)
    (s : St) : 2 ∈ (profileStep env s).1.trace := by
  unfold profileStep
  simp only [block_cons, block_nil, hw, hpc, if_true]
  refine mem_trace_tryc (fun e => extendsSt_emit _) ?_
  rw [seqS_ok _ (progresses_attempt_ok 1 _), seqS_ok _ (progresses_emit _ _),
    seqS_ok _ (progresses_emit _ _)]
  rw [seqS_skip_right, seqS_ok _ (progresses_emit _ _), seqS_skip_right]
  simp [attempt]

/-- With the heading found and no existing profile, the profile block
always prints the creation line. -/
theorem profileStep_creates (env : Env)
    (hw : env.waitChessKidsHeading = none) (hpc : env.profileBtnCount = 0)
    (s : St) : "Creating new profile..." ∈ (profileStep env s).1.log := by
  unfold profileStep
  simp only [block_cons, block_nil, hw, hpc, gt_iff_lt, lt_self_iff_false,
    if_false]
  refine mem_log_tryc (fun e => extendsSt_emit _) ?_
  rw [seqS_ok _ (progresses_attempt_ok 1 _), seqS_ok _ (progresses_emit _ _),
    seqS_ok _ (progresses_emit _ _)]
  rw [seqS_skip_right, seqS_ok _ (progresses_emit _ _)]
  refine mem_log_extends ?_ (by simp [emit])
  refine extendsSt_seqS (extendsSt_ite (extendsSt_attempt _ _) extendsSt_skip) ?_
  exact extendsSt_seqS (extendsSt_attempt _ _)
    (extendsSt_seqS (extendsSt_attempt _ _)
      (extendsSt_seqS (extendsSt_attempt _ _) extendsSt_skip))

end VerifyLessonPage

namespace VerifyLesson

theorem extendsSt_lessonTail (env : Env) :
    ExtendsSt (block [lessonOne env, lessonTwo env]) := by
  refine extendsSt_block ?_
  intro a ha
  simp at ha
  rcases ha with rfl | rfl
  exacts [extendsSt_lessonOne env, extendsSt_lessonTwo env]

theorem tryc_eval {body1 body2 : Script} {hd : String → Script} {s1 s2 : St}
    (h : body1 s1 = body2 s2) : tryc body1 hd s1 = tryc body2 hd s2 := by
  unfold tryc
  rw [h]

theorem runLesson_profile_split (env : Env) (h0 : env.gotoRoot = none) :
    runLesson env = tryc (seqS (profileSelect env)
      (block [lessonOne env, lessonTwo env]))
      (fun e => emit ("Error: " ++ e))
      ⟨["Navigating to root..."], [], ["http://localhost:5173/"], [0, 1]⟩ := by
  show (seqS (tryc (verify_lesson env) fun e => emit ("Error: " ++ e)) skip)
    St.init = _
  rw [seqS_skip_right]
  refine tryc_eval ?_
  unfold verify_lesson
  rw [h0, block_cons, seqS_ok _ (progresses_emit _ _), block_cons,
    seqS_ok _ (progresses_nav_ok _ _ _), block_cons,
    seqS_ok _ (progresses_attempt_ok _ _), block_cons]
  rfl

theorem mem_log_runLesson (env : Env) (h0 : env.gotoRoot = none) {m : String}
    (h : m ∈ (profileSelect env
      ⟨["Navigating to root..."], [], ["http://localhost:5173/"], [0, 1]⟩).1.log) :
    m ∈ (runLesson env).1.log := by
  rw [runLesson_profile_split env h0]
  exact mem_log_tryc (fun e => extendsSt_emit _)
    (mem_log_seqS (extendsSt_lessonTail env) h)

theorem mem_trace_runLesson (env : Env) (h0 : env.gotoRoot = none) {i : Nat}
    (h : i ∈ (profileSelect env
      ⟨["Navigating to root..."], [], ["http://localhost:5173/"], [0, 1]⟩).1.trace) :
    i ∈ (runLesson env).1.trace := by
  rw [runLesson_profile_split env h0]
  exact mem_trace_tryc (fun e => extendsSt_emit _)
    (mem_trace_seqS (extendsSt_lessonTail env) h)

/-- On the profiles page with `.add-profile` visible, the profile block
always attempts the click on `.add-profile`. -/
theorem profileSelect_clicks_add (env : Env)
    (hsub : substrB "/profiles" env.urlAfterRoot = true)
    (hav : env.addProfileVisible = true) (s : St) :
    2 ∈ (profileSelect env s).1.trace := by
  unfold profileSelect
  simp only [block_cons, block_nil, hsub, hav, if_true]
  rw [seqS_ok _ (progresses_emit _ _)]
  refine mem_trace_seqS extendsSt_skip ?_
  refine mem_trace_tryc (fun e => extendsSt_seqS (extendsSt_emit _)
    (extendsSt_seqS (extendsSt_raiseS _) extendsSt_skip)) ?_
  rw [seqS_ok _ (progresses_emit _ _)]
  refine mem_trace_seqS ?_ (by simp [attempt])
  exact extendsSt_seqS (extendsSt_attempt _ _)
    (extendsSt_seqS (extendsSt_attempt _ _)
      (extendsSt_seqS (extendsSt_attempt _ _)
        (extendsSt_seqS (extendsSt_attempt _ _) extendsSt_skip)))

/-- On the profiles page with `.add-profile` not visible but an existing
profile present, the profile block always attempts the click on the first
`.profile-content-btn`. -/
theorem profileSelect_selects_existing (env : Env)
    (hsub : substrB "/profiles" env.urlAfterRoot = true)
    (hav : env.addProfileVisible = false) (hpc : env.profileBtnCount > 0)
    (s : St) : 7 ∈ (profileSelect env s).1.trace := by
  unfold profileSelect
  simp only [block_cons, block_nil, hsub, hav, hpc, if_true,
    Bool.false_eq_true, if_false]
  rw [seqS_ok _ (progresses_emit _ _)]
  refine mem_trace_seqS extendsSt_skip ?_
  refine mem_trace_tryc (fun e => extendsSt_seqS (extendsSt_emit _)
    (extendsSt_seqS (extendsSt_raiseS _) extendsSt_skip)) ?_
  rw [seqS_ok _ (progresses_emit _ _)]
  refine mem_trace_seqS ?_ (by simp [attempt])
  exact extendsSt_seqS (extendsSt_attempt _ _) extendsSt_skip

/-- On the profiles page, the profile block always prints its detection
line. -/
theorem profileSelect_mem_detect (env : Env)
    (hsub : substrB "/profiles" env.urlAfterRoot = true) (s : St) :
    "On profiles page" ∈ (profileSelect env s).1.log := by
  unfold profileSelect
  simp only [block_cons, block_nil, hsub, if_true]
  rw [seqS_ok _ (progresses_emit _ _)]
  refine mem_log_seqS extendsSt_skip ?_
  refine mem_log_tryc (fun e => extendsSt_seqS (extendsSt_emit _)
    (extendsSt_seqS (extendsSt_raiseS _) extendsSt_skip)) ?_
  refine mem_log_extends ?_ (by simp [emit])
  refine extendsSt_ite ?_ (extendsSt_ite ?_ extendsSt_skip)
  · exact extendsSt_seqS (extendsSt_emit _)
      (extendsSt_seqS (extendsSt_attempt _ _)
        (extendsSt_seqS (extendsSt_attempt _ _)
          (extendsSt_seqS (extendsSt_attempt _ _)
            (extendsSt_seqS (extendsSt_attempt _ _)
              (extendsSt_seqS (extendsSt_attempt _ _) extendsSt_skip)))))
  · exact extendsSt_seqS (extendsSt_emit _)
      (extendsSt_seqS (extendsSt_attempt _ _)
        (extendsSt_seqS (extendsSt_attempt _ _) extendsSt_skip))

end VerifyLesson

/-- Claim C5 counterexample: `verify_lesson_page.py` does not decide
whether it is on the profile-selection page by a URL substring test: in
this run the browser URL after the root navigation does not contain
`/profiles`, yet the script enters the profile branch (it prints the
detection line and attempts the profile click), because its detection is a
selector wait for the Chess-Kids heading. -/
theorem page_profile_branch_ignores_url :
    substrB "/profiles" envPageAllOk.urlAfterRoot = false ∧
    "On Profile Select Page" ∈ (VerifyLessonPage.runPage envPageAllOk).1.log ∧
    2 ∈ (VerifyLessonPage.runPage envPageAllOk).1.trace := by
  decide

/-- Claim C5 amended: only `verify_lesson.py` detects the
profile-selection page by testing the fixed substring `/profiles` against
the current page URL (its detection line is printed exactly when the
substring occurs); `verify_lesson_page.py` instead detects it by waiting
for the Chess-Kids heading selector (its detection line is printed exactly
when that wait succeeds, whatever the URL).  Both scripts then branch on
element visibility or element counts before clicking or filling:
`verify_lesson.py` clicks `.add-profile` when it is visible and otherwise
clicks the first `.profile-content-btn` when one exists, and
`verify_lesson_page.py` clicks the first `.profile-content-btn` when the
count is positive and otherwise takes the profile-creation path. -/
theorem profile_detection_mechanisms (envL : VerifyLesson.Env)
    (envP : VerifyLessonPage.Env) (hL0 : envL.gotoRoot = none)
    (hP0 : envP.gotoRoot = none) :
    ("On profiles page" ∈ (VerifyLesson.runLesson envL).1.log ↔
      substrB "/profiles" envL.urlAfterRoot = true) ∧
    ("On Profile Select Page" ∈ (VerifyLessonPage.runPage envP).1.log ↔
      envP.waitChessKidsHeading = none) ∧
    (substrB "/profiles" envL.urlAfterRoot = true →
      envL.addProfileVisible = true →
      2 ∈ (VerifyLesson.runLesson envL).1.trace) ∧
    (substrB "/profiles" envL.urlAfterRoot = true →
      envL.addProfileVisible = false → envL.profileBtnCount > 0 →
      7 ∈ (VerifyLesson.runLesson envL).1.trace) ∧
    (envP.waitChessKidsHeading = none → envP.profileBtnCount > 0 →
      2 ∈ (VerifyLessonPage.runPage envP).1.trace) ∧
    (envP.waitChessKidsHeading = none → envP.profileBtnCount = 0 →
      "Creating new profile..." ∈ (VerifyLessonPage.runPage envP).1.log) := by
  refine ⟨⟨?_, ?_⟩, ⟨?_, ?_⟩, ?_, ?_, ?_, ?_⟩
  · intro hmem
    by_contra hsub
    rw [Bool.not_eq_true] at hsub
    have hla : LogAll (fun m => m ≠ "On profiles page")
        (VerifyLesson.lessonMain envL) := by
      unfold VerifyLesson.lessonMain VerifyLesson.verify_lesson
      refine logAll_seqS ?_ (logAll_skip _)
      refine logAll_tryc ?_ ?_
      · simp only [block_cons, block_nil]
        rw [VerifyLesson.profileSelect_not_profiles envL hsub]
        refine logAll_seqS (logAll_emit (by decide)) ?_
        refine logAll_seqS (logAll_nav _ _ _ _) ?_
        refine logAll_seqS (logAll_attempt _ _ _) ?_
        refine logAll_seqS (logAll_skip _) ?_
        refine logAll_seqS (VerifyLesson.logAll_lessonOne envL (by decide)) ?_
        exact logAll_seqS
          (VerifyLesson.logAll_lessonTwo envL (by decide) (by decide))
          (logAll_skip _)
      · intro e2
        refine logAll_emit ?_
        intro hcontra
        have hd := congrArg String.data hcontra
        simp [String.data_append] at hd
    exact hla St.init (by simp [St.init]) _ hmem rfl
  · intro hsub
    refine VerifyLesson.mem_log_runLesson envL hL0 ?_
    exact VerifyLesson.profileSelect_mem_detect envL hsub _
  · intro hmem
    rcases hw : envP.waitChessKidsHeading with _ | e2
    · rfl
    · exfalso
      have hla : LogAll (fun m => m ≠ "On Profile Select Page")
          (VerifyLessonPage.run envP) := by
        unfold VerifyLessonPage.run
        simp only [block_cons, block_nil]
        refine logAll_seqS (logAll_emit (by decide)) ?_
        refine logAll_seqS (logAll_nav _ _ _ _) ?_
        refine logAll_seqS (VerifyLessonPage.logAll_profileStep_err envP hw
          ?_) ?_
        · intro hcontra
          have hd := congrArg String.data hcontra
          simp [String.data_append] at hd
        refine logAll_seqS (logAll_emit (by decide)) ?_
        refine logAll_seqS (logAll_nav _ _ _ _) ?_
        refine logAll_seqS (logAll_emit (by decide)) ?_
        refine logAll_seqS (VerifyLessonPage.logAll_storyStep envP (by decide)
          ?_) ?_
        · intro e3 hcontra
          have hd := congrArg String.data hcontra
          simp [String.data_append] at hd
        refine logAll_seqS (logAll_emit (by decide)) ?_
        refine logAll_seqS (VerifyLessonPage.logAll_boardStep envP (by decide)
          (by decide)) ?_
        refine logAll_seqS (logAll_attempt _ _ _) ?_
        refine logAll_seqS (logAll_emit (by decide)) ?_
        exact logAll_seqS (logAll_shot _ _) (logAll_skip _)
      exact hla St.init (by simp [St.init]) _ hmem rfl
  · intro hw
    refine VerifyLessonPage.mem_log_runPage envP hP0 ?_
    exact VerifyLessonPage.profileStep_ok_mem envP hw _
  · intro hsub hav
    refine VerifyLesson.mem_trace_runLesson envL hL0 ?_
    exact VerifyLesson.profileSelect_clicks_add envL hsub hav _
  · intro hsub hav hpc
    refine VerifyLesson.mem_trace_runLesson envL hL0 ?_
    exact VerifyLesson.profileSelect_selects_existing envL hsub hav hpc _
  · intro hw hpc
    refine VerifyLessonPage.mem_trace_runPage envP hP0 ?_
    exact VerifyLessonPage.profileStep_clicks_first envP hw hpc _
  · intro hw hpc
    refine VerifyLessonPage.mem_log_runPage envP hP0 ?_
    exact VerifyLessonPage.profileStep_creates envP hw hpc _

/-- Claim C5 amended, witnessed at concrete runs: the lesson script's
detection line appears when the URL contains the substring, the page
script's detection line appears when the heading wait succeeds, and both
count-based branches fire their clicks. -/
theorem profile_detection_mechanisms_witness :
    "On profiles page" ∈ (VerifyLesson.runLesson envLessonAllOk).1.log ∧
    "On Profile Select Page" ∈
      (VerifyLessonPage.runPage envPageAllOk).1.log ∧
    7 ∈ (VerifyLesson.runLesson envLessonAllOk).1.trace ∧
    2 ∈ (VerifyLessonPage.runPage envPageAllOk).1.trace :=
  ⟨(profile_detection_mechanisms envLessonAllOk envPageAllOk rfl rfl).1.mpr
      (by decide),
   (profile_detection_mechanisms envLessonAllOk envPageAllOk rfl
      rfl).2.1.mpr rfl,
   (profile_detection_mechanisms envLessonAllOk envPageAllOk rfl
      rfl).2.2.2.1 (by decide) rfl (by decide),
   (profile_detection_mechanisms envLessonAllOk envPageAllOk rfl
      rfl).2.2.2.2.1 rfl (by decide)⟩

theorem seqS_log_prefix {a b : Script} (hb : ExtendsSt b) {s : St}
    {P : List String} (h : ∃ d, (a s).1.log = P ++ d) :
    ∃ d, ((seqS a b) s).1.log = P ++ d := by
  obtain ⟨d, hd⟩ := h
  rcases h2 : (a s).2 with _ | e
  · obtain ⟨d1, _, _, _, hl, _, _, _⟩ := hb ((a s).1)
    exact ⟨d ++ d1, by rw [seqS_ok _ h2, hl, hd, List.append_assoc]⟩
  · exact ⟨d, by rw [seqS_err _ h2]; exact hd⟩

theorem tryc_log_prefix {body : Script} {hd : String → Script}
    (hh : ∀ e, ExtendsSt (hd e)) {s : St} {P : List String}
    (h : ∃ d, (body s).1.log = P ++ d) :
    ∃ d, ((tryc body hd) s).1.log = P ++ d := by
  obtain ⟨d, hdp⟩ := h
  rcases h2 : (body s).2 with _ | e
  · exact ⟨d, by rw [tryc_ok _ h2]; exact hdp⟩
  · obtain ⟨d1, _, _, _, hl, _, _, _⟩ := hh e ((body s).1)
    exact ⟨d ++ d1, by rw [tryc_err _ h2, hl, hdp, List.append_assoc]⟩

theorem tryc_trace_eq {body : Script} {hd : String → Script}
    (hh : ∀ e, NoSteps (hd e)) (s : St) :
    ((tryc body hd) s).1.trace = (body s).1.trace := by
  rcases h2 : (body s).2 with _ | e
  · rw [tryc_ok _ h2]
  · rw [tryc_err _ h2, hh e]

namespace VerifyLesson

theorem lessonOne_starts (env : Env) (s : St) :
    ∃ d, (lessonOne env s).1.log =
      (s.log ++ ["Navigating to lesson 1..."]) ++ d := by
  unfold lessonOne
  simp only [block_cons, block_nil]
  rw [seqS_ok _ (progresses_emit _ _)]
  have hext : ExtendsSt (seqS
      (nav 9 "http://localhost:5173/lesson/1" env.gotoLesson1)
      (seqS (attempt 10 env.waitLessonPage1)
        (seqS (if env.practiceVisible1 = true then
            seqS (attempt 11 env.clickPractice1)
              (seqS (attempt 12 none) skip)
          else skip)
          (seqS (shot "verification/lesson_1_board.png") skip)))) := by
    refine extendsSt_seqS (extendsSt_nav _ _ _) ?_
    refine extendsSt_seqS (extendsSt_attempt _ _) ?_
    refine extendsSt_seqS (extendsSt_ite ?_ extendsSt_skip) ?_
    · exact extendsSt_seqS (extendsSt_attempt _ _)
        (extendsSt_seqS (extendsSt_attempt _ _) extendsSt_skip)
    · exact extendsSt_seqS (extendsSt_shot _) extendsSt_skip
  obtain ⟨d1, _, _, _, hl, _, _, _⟩ := hext
    ((emit "Navigating to lesson 1..." s).1)
  exact ⟨d1, by rw [hl]; simp [emit]⟩

end VerifyLesson

/-- Claim C8: in a `verify_lesson.py` run that lands on the profiles page
with `.add-profile` not visible and no `.profile-content-btn` present, the
profile-selection block performs no interaction and raises no error: none
of its browser steps (program points 2 through 8) is ever attempted, the
catch line `Profile selection failed: ...` is never printed, and the
script proceeds directly to navigating to lesson 1 (the first three log
lines are exactly the root navigation, the profiles-page detection, and
the lesson-1 navigation). -/
theorem empty_profiles_page_no_interaction (env : VerifyLesson.Env)
    (h0 : env.gotoRoot = none)
    (hsub : substrB "/profiles" env.urlAfterRoot = true)
    (hav : env.addProfileVisible = false)
    (hpc : env.profileBtnCount = 0) :
    (VerifyLesson.runLesson env).1.log.take 3 =
      ["Navigating to root...", "On profiles page",
       "Navigating to lesson 1..."] ∧
    (∀ i ∈ (VerifyLesson.runLesson env).1.trace, ¬(2 ≤ i ∧ i ≤ 8)) ∧
    (∀ m ∈ (VerifyLesson.runLesson env).1.log, ∀ e,
      m ≠ "Profile selection failed: " ++ e) := by
  have hps : VerifyLesson.profileSelect env = emit "On profiles page" := by
    unfold VerifyLesson.profileSelect
    funext s
    simp [hsub, hav, hpc, block_cons, block_nil, seqS, tryc, emit, skip]
  have hsplit := VerifyLesson.runLesson_profile_split env h0
  rw [hps] at hsplit
  have hlessonTail : ExtendsSt (block [VerifyLesson.lessonTwo env]) := by
    refine extendsSt_block ?_
    intro a ha
    simp at ha
    subst ha
    exact VerifyLesson.extendsSt_lessonTwo env
  refine ⟨?_, ?_, ?_⟩
  · obtain ⟨d, hd⟩ : ∃ d, (VerifyLesson.runLesson env).1.log =
        ["Navigating to root...", "On profiles page",
         "Navigating to lesson 1..."] ++ d := by
      rw [hsplit]
      refine tryc_log_prefix (fun e => extendsSt_emit _) ?_
      rw [seqS_ok _ (progresses_emit _ _), block_cons]
      refine seqS_log_prefix hlessonTail ?_
      exact VerifyLesson.lessonOne_starts env _
    rw [hd]
    rfl
  · intro i hi
    have hsteps : StepsIn (block [VerifyLesson.lessonOne env,
        VerifyLesson.lessonTwo env]) 9 18 := by
      rw [block_cons]
      refine @stepsIn_seqS _ _ 9 13 18 (VerifyLesson.stepsIn_lessonOne env)
        ?_ (by omega) (by omega)
      rw [block_cons, block_nil]
      exact @stepsIn_seqS _ _ 13 18 18 (VerifyLesson.stepsIn_lessonTwo env)
        (stepsIn_of_noSteps noSteps_skip 18 18) (by omega) (by omega)
    rw [hsplit] at hi
    rw [tryc_trace_eq (fun e => noSteps_emit _)] at hi
    rw [seqS_ok _ (progresses_emit _ _)] at hi
    obtain ⟨t, ht, _, hb⟩ := hsteps _
    rw [ht] at hi
    rcases List.mem_append.mp hi with h1 | h2
    · have : i = 0 ∨ i = 1 := by
        simpa [emit] using h1
      omega
    · have := hb i h2
      omega
  · intro m hm e
    have hla : LogAll (fun m2 => ∀ e2,
        m2 ≠ "Profile selection failed: " ++ e2)
        (tryc (seqS (emit "On profiles page")
          (block [VerifyLesson.lessonOne env, VerifyLesson.lessonTwo env]))
          (fun e2 => emit ("Error: " ++ e2))) := by
      refine logAll_tryc ?_ ?_
      · refine logAll_seqS (logAll_emit ?_) ?_
        · exact fun e2 => ne_append_of_length_lt (by decide) e2
        · refine logAll_block ?_
          intro a ha
          simp at ha
          rcases ha with rfl | rfl
          · exact VerifyLesson.logAll_lessonOne env
              (fun e2 => ne_append_of_length_lt (by decide) e2)
          · exact VerifyLesson.logAll_lessonTwo env
              (fun e2 => ne_append_of_length_lt (by decide) e2)
              (fun e2 => ne_append_of_length_lt (by decide) e2)
      · intro e2
        refine logAll_emit ?_
        intro e3 hcontra
        have hd := congrArg String.data hcontra
        simp [String.data_append] at hd
    rw [hsplit] at hm
    exact hla _ (by
      intro m2 hm2
      simp at hm2
      subst hm2
      exact fun e2 => ne_append_of_length_lt (by decide) e2) m hm e

/-- Claim C8 witnessed at a concrete run on an empty profiles page. -/
theorem empty_profiles_page_no_interaction_witness :
    (VerifyLesson.runLesson envEmptyProfiles).1.log.take 3 =
      ["Navigating to root...", "On profiles page",
       "Navigating to lesson 1..."] :=
  (empty_profiles_page_no_interaction envEmptyProfiles rfl (by decide) rfl
    rfl).1
